import Mathlib

/-! # GpioCppWrl: the interactive GPIO pin prompt

A shallow embedding of `GpioCppWrl/main.cpp`: the value and enumeration codecs
(`operator!`, the `operator>>` and `operator<<` overloads) and the command loop
`ShowPrompt`, followed by theorems about them.

Conventions of the embedding.

* A `std::wstring` is a list of characters (`wchar_t` values are taken to be Unicode scalar
  values). A C string (`c_str()`, a wide literal) is the part of such a list before its
  first NUL character.
* `std::wistringstream` is the sequence of characters not yet extracted together with
  its `eofbit` and `failbit`.
* The pin behind `IGpioPin*` is an arbitrary deterministic machine over a state type `σ`;
  every method maps the state to a result and a new state. The session keeps a log of
  the methods it called, in order, so that statements such as "no write is issued" can
  be written down.
* `std::wcout` is the text inserted so far together with its `basefield` flag
  (`std::hex` and `std::dec` are sticky).
* Integers (`int`, `long`, `HRESULT`, `INT64`) are `Int`; the width matters only where a
  value is range-checked or printed in hexadecimal, and is explicit there.
-/

namespace GpioCppWrl

/-! ## Platform types -/

/-- A `std::wstring`, as the list of its characters. -/
abbrev WString := List Char

/-- The Windows `HRESULT`, a 32-bit signed integer. -/
abbrev HRESULT := Int

/-- Modelled from the spec: the macro `FAILED` is defined in the platform headers, not in
this repository; it tells the failure codes of the collaborator, the negative `HRESULT`s,
from success. -/
def FAILED (hr : HRESULT) : Bool := decide (hr < 0)

/-- The enumeration `GpioPinValue`, by its underlying integer: a C++ enumeration object can
hold integers other than its enumerators, which is what the `default:` branches are for. -/
abbrev GpioPinValue := Int

/-- Modelled from the spec: the enumerator `GpioPinValue_Low` is declared in the platform
header, not in this repository; the spec gives it the value 0. -/
def GpioPinValue_Low : GpioPinValue := 0

/-- Modelled from the spec: the enumerator `GpioPinValue_High` is declared in the platform
header, not in this repository; the spec gives it the value 1. -/
def GpioPinValue_High : GpioPinValue := 1

/-- The enumeration `GpioPinDriveMode`, by its underlying integer. -/
abbrev GpioPinDriveMode := Int

/-- Modelled from the spec: the enumerators of `GpioPinDriveMode` are declared in the
platform header, not in this repository; they are numbered in the order in which the
spec's data model lists the four modes. -/
def GpioPinDriveMode_Input : GpioPinDriveMode := 0

/-- Modelled from the spec: second drive mode of the data model (see
`GpioPinDriveMode_Input`). -/
def GpioPinDriveMode_Output : GpioPinDriveMode := 1

/-- Modelled from the spec: third drive mode of the data model (see
`GpioPinDriveMode_Input`). -/
def GpioPinDriveMode_InputPullUp : GpioPinDriveMode := 2

/-- Modelled from the spec: fourth drive mode of the data model (see
`GpioPinDriveMode_Input`). -/
def GpioPinDriveMode_InputPullDown : GpioPinDriveMode := 3

/-- The enumeration `GpioSharingMode`, by its underlying integer. -/
abbrev GpioSharingMode := Int

/-- Modelled from the spec: the enumerators of `GpioSharingMode` are declared in the
platform header, not in this repository; they are numbered in the order in which the
spec's data model lists the two modes. -/
def GpioSharingMode_Exclusive : GpioSharingMode := 0

/-- Modelled from the spec: second sharing mode of the data model (see
`GpioSharingMode_Exclusive`). -/
def GpioSharingMode_SharedReadOnly : GpioSharingMode := 1

/-! ## The C and C++ library routines the program calls -/

/-- The space class of the classic "C" locale, which `operator>>` skips and stops at. -/
def iswspace (c : Char) : Bool :=
  c == ' ' || c == '\t' || c == '\n' || c == '\x0b' || c == '\x0c' || c == '\r'

/-- A decimal digit, as `num_get` recognises it. -/
def iswdigit (c : Char) : Bool :=
  decide ('0'.toNat ≤ c.toNat) && decide (c.toNat ≤ '9'.toNat)

/-- The value of a run of decimal digits, most significant first. -/
def decimalValue (ds : WString) : Nat :=
  ds.foldl (fun acc c => 10 * acc + (c.toNat - '0'.toNat)) 0

/-- Lower bound of `int`. -/
def INT_MIN : Int := -2147483648

/-- Upper bound of `int`. -/
def INT_MAX : Int := 2147483647

/-- The method `c_str()`, read as a C string: the characters before the first NUL. -/
def c_str (s : WString) : WString := s.takeWhile (fun c => c != '\x00')

/-- The ASCII lower-casing that `_wcsicmp` applies in the "C" locale (the program never
changes the locale): `(c >= L'A' && c <= L'Z') ? c - L'A' + L'a' : c`. -/
def ascii_towlower (c : Char) : Char :=
  if 'A'.toNat ≤ c.toNat ∧ c.toNat ≤ 'Z'.toNat then Char.ofNat (c.toNat - 'A'.toNat + 'a'.toNat)
  else c

/-- The CRT routine `_wcsicmp` on two C strings, the end of a list standing for the
terminating NUL: the loop `do { f = towlower(*a++); l = towlower(*b++); } while (f && f == l)`
and its result `f - l`. -/
def wcsicmp : WString → WString → Int
  | [], [] => 0
  | [], b :: _ => 0 - ((ascii_towlower b).toNat : Int)
  | a :: _, [] => ((ascii_towlower a).toNat : Int) - 0
  | a :: as, b :: bs =>
    if (ascii_towlower a).toNat ≠ 0 ∧ ascii_towlower a = ascii_towlower b then wcsicmp as bs
    else ((ascii_towlower a).toNat : Int) - ((ascii_towlower b).toNat : Int)

/-- A `std::wistringstream`: the characters not yet extracted and the two state bits the
program can observe. -/
structure wistringstream where
  /-- The characters not yet extracted. -/
  buf : WString
  /-- The bit `eofbit`. -/
  eofbit : Bool
  /-- The bit `failbit`. -/
  failbit : Bool
  deriving DecidableEq, Repr

namespace wistringstream

/-- The constructor `std::wistringstream linestream(line)`. -/
def ofLine (line : WString) : wistringstream := ⟨line, false, false⟩

/-- The method `good()`. -/
def good (is : wistringstream) : Bool := !is.eofbit && !is.failbit

/-- The method `fail()`. -/
def fail (is : wistringstream) : Bool := is.failbit

/-- The call `is.clear()`: the state becomes `goodbit`. -/
def clear (is : wistringstream) : wistringstream := ⟨is.buf, false, false⟩

/-- The call `is.clear(is.failbit)`: the state becomes exactly `failbit`. -/
def clearToFail (is : wistringstream) : wistringstream := ⟨is.buf, false, true⟩

/-- The input sentry of a formatted extraction: a stream that is not good gets `failbit`;
otherwise leading white space is skipped, and running out of characters while doing so
sets `eofbit` and `failbit`. The flag tells whether the extraction may proceed. -/
def sentry (is : wistringstream) : wistringstream × Bool :=
  if is.good then
    match is.buf.dropWhile iswspace with
    | [] => (⟨[], true, true⟩, false)
    | c :: rest => (⟨c :: rest, false, false⟩, true)
  else (⟨is.buf, is.eofbit, true⟩, false)

/-- The extraction `is >> str` of a `std::wstring`: the next white-space-delimited token.
When the sentry refuses, `str` keeps its value. Reaching the end of the characters sets
`eofbit`. -/
def extractWString (is : wistringstream) (str : WString) : wistringstream × WString :=
  match is.sentry with
  | (is1, false) => (is1, str)
  | (is1, true) =>
    let rest := is1.buf.dropWhile (fun c => !iswspace c)
    (⟨rest, rest.isEmpty, false⟩, is1.buf.takeWhile (fun c => !iswspace c))

/-- The extraction `is >> raw` of an `int` with `basefield` at its default `dec`: after
the sentry, an optional sign and then the longest run of decimal digits are consumed.
No digit, or a value outside `int`, sets `failbit`; the result is the value stored in
`raw`, if any. -/
def extractInt (is : wistringstream) : wistringstream × Option Int :=
  match is.sentry with
  | (is1, false) => (is1, none)
  | (is1, true) =>
    let negative := is1.buf.head? == some '-'
    let body := match is1.buf with
      | '-' :: r => r
      | '+' :: r => r
      | r => r
    let digits := body.takeWhile iswdigit
    let rest := body.dropWhile iswdigit
    let v : Int := if negative then -(decimalValue digits : Int) else (decimalValue digits : Int)
    if digits.isEmpty then (⟨rest, rest.isEmpty, true⟩, none)
    else if INT_MIN ≤ v ∧ v ≤ INT_MAX then (⟨rest, rest.isEmpty, false⟩, some v)
    else (⟨rest, rest.isEmpty, true⟩, none)

end wistringstream

/-- Formatted insertion of an integer of the given bit width into a stream whose
`basefield` is `hex` or `dec`: hexadecimal shows the two's complement bit pattern in
lower-case digits, decimal shows the signed value. -/
def formatInteger (hex : Bool) (width : Nat) (v : Int) : WString :=
  if hex then Nat.toDigits 16 (v % 2 ^ width).toNat
  else if v < 0 then '-' :: Nat.toDigits 10 v.natAbs
  else Nat.toDigits 10 v.natAbs

/-! ## The codecs of `main.cpp` -/

/-- The function `operator!` on `GpioPinValue`. -/
def operator_not (Value : GpioPinValue) : GpioPinValue :=
  if Value = GpioPinValue_Low then GpioPinValue_High else GpioPinValue_Low

/-- The function `operator>>` for `GpioPinValue`: the stream after the extraction and
the value assigned to `value`, if one is assigned. -/
def GpioPinValue.operator_extract (is : wistringstream) : wistringstream × Option GpioPinValue :=
  let (is1, raw) := is.extractInt
  if is1.fail then (is1, none)
  else
    match raw with
    | none => (is1, none)
    | some raw =>
      if raw = GpioPinValue_Low ∨ raw = GpioPinValue_High then (is1, some raw)
      else (is1.clearToFail, none)

/-- The function `operator<<` for `GpioPinValue`: the text inserted. -/
def GpioPinValue.operator_insert (value : GpioPinValue) : WString :=
  if value = GpioPinValue_Low then "Low".toList
  else if value = GpioPinValue_High then "High".toList
  else "[undefined]".toList

/-- The function `operator>>` for `GpioPinDriveMode`: the stream after the extraction and
the value assigned to `value`, if one is assigned. -/
def GpioPinDriveMode.operator_extract (is : wistringstream) :
    wistringstream × Option GpioPinDriveMode :=
  let (is1, driveMode) := is.clear.extractWString []
  if wcsicmp (c_str driveMode) "input".toList = 0 then (is1, some GpioPinDriveMode_Input)
  else if wcsicmp (c_str driveMode) "output".toList = 0 then (is1, some GpioPinDriveMode_Output)
  else if wcsicmp (c_str driveMode) "inputPullUp".toList = 0 then
    (is1, some GpioPinDriveMode_InputPullUp)
  else if wcsicmp (c_str driveMode) "inputPullDown".toList = 0 then
    (is1, some GpioPinDriveMode_InputPullDown)
  else (is1.clearToFail, none)

/-- The function `operator<<` for `GpioPinDriveMode`: the text inserted. -/
def GpioPinDriveMode.operator_insert (value : GpioPinDriveMode) : WString :=
  if value = GpioPinDriveMode_Input then "input".toList
  else if value = GpioPinDriveMode_Output then "output".toList
  else if value = GpioPinDriveMode_InputPullUp then "inputPullUp".toList
  else if value = GpioPinDriveMode_InputPullDown then "inputPullDown".toList
  else "[undefined]".toList

/-- The function `operator<<` for `GpioSharingMode`: the text inserted. -/
def GpioSharingMode.operator_insert (value : GpioSharingMode) : WString :=
  if value = GpioSharingMode_Exclusive then "Exclusive".toList
  else if value = GpioSharingMode_SharedReadOnly then "SharedReadOnly".toList
  else "[undefined]".toList

/-- The constant `Help`. -/
def Help : WString :=
  ("Commands:\n" ++
   " > write 0|1                        Write pin high or low\n" ++
   " > toggle                           Toggle the pin from its current state\n" ++
   " > read                             Read pin\n" ++
   " > setdrivemode drive_mode          Set the pins's drive mode. Drive modes:\n" ++
   "     where drive_mode = input|output|\n" ++
   "                        inputPullUp|inputPullDown\n" ++
   " > info                             Dump information about the pin\n" ++
   " > help                             Display this help message\n" ++
   " > quit                             Quit\n\n").toList

/-! ## The pin and the session -/

/-- The methods of `IGpioPin` that `ShowPrompt` calls, over a pin state `σ`. A method
returns what the caller receives (the `HRESULT`, or the value left in the out-parameter)
and the next pin state. -/
structure IGpioPin (σ : Type) where
  /-- The method `Write(value)`. -/
  Write : σ → GpioPinValue → HRESULT × σ
  /-- The method `Read(&value)`: the `HRESULT` and the value left in `value`. -/
  Read : σ → (HRESULT × GpioPinValue) × σ
  /-- The method `SetDriveMode(driveMode)`. -/
  SetDriveMode : σ → GpioPinDriveMode → HRESULT × σ
  /-- The method `get_PinNumber(&pinNumber)`. -/
  get_PinNumber : σ → Int × σ
  /-- The method `get_SharingMode(&sharingMode)`. -/
  get_SharingMode : σ → GpioSharingMode × σ
  /-- The method `get_DebounceTimeout(&debounceTimeout)`: the field `Duration`. -/
  get_DebounceTimeout : σ → Int × σ
  /-- The method `GetDriveMode(&driveMode)`. -/
  GetDriveMode : σ → GpioPinDriveMode × σ

/-- One call on the pin handle, as recorded in the session log. -/
inductive PinCall where
  | Write (value : GpioPinValue)
  | Read
  | SetDriveMode (driveMode : GpioPinDriveMode)
  | get_PinNumber
  | get_SharingMode
  | get_DebounceTimeout
  | GetDriveMode
  deriving DecidableEq, Repr

/-- What one run of `ShowPrompt` carries from one loop iteration to the next: the local
`outputLatch`, the pin, `std::wcout` (text and `basefield`), and the log of pin calls. -/
structure Session (σ : Type) where
  /-- The local variable `outputLatch`. -/
  outputLatch : GpioPinValue
  /-- The state of the pin behind the handle. -/
  pin : σ
  /-- The text inserted into `std::wcout` so far. -/
  wcout : WString
  /-- Whether the `basefield` of `std::wcout` is `hex` (otherwise `dec`). -/
  hex : Bool
  /-- The calls made on the pin handle so far, oldest first. -/
  calls : List PinCall

namespace Session

variable {σ : Type}

/-- Insertion of text: `std::wcout << text`. -/
def put (s : Session σ) (text : WString) : Session σ :=
  { s with wcout := s.wcout ++ text }

/-- Insertion of the manipulator `std::hex`. -/
def setHex (s : Session σ) : Session σ := { s with hex := true }

/-- Insertion of the manipulator `std::dec`. -/
def setDec (s : Session σ) : Session σ := { s with hex := false }

/-- Insertion of an integer of the given bit width, in the current `basefield`. -/
def putInteger (s : Session σ) (width : Nat) (v : Int) : Session σ :=
  s.put (formatInteger s.hex width v)

/-- The call `pin->Write(value)`. -/
def Write (pin : IGpioPin σ) (s : Session σ) (value : GpioPinValue) : HRESULT × Session σ :=
  let (hr, p) := pin.Write s.pin value
  (hr, { s with pin := p, calls := s.calls ++ [PinCall.Write value] })

/-- The call `pin->Read(&value)`. -/
def Read (pin : IGpioPin σ) (s : Session σ) : (HRESULT × GpioPinValue) × Session σ :=
  let (r, p) := pin.Read s.pin
  (r, { s with pin := p, calls := s.calls ++ [PinCall.Read] })

/-- The call `pin->SetDriveMode(driveMode)`. -/
def SetDriveMode (pin : IGpioPin σ) (s : Session σ) (driveMode : GpioPinDriveMode) :
    HRESULT × Session σ :=
  let (hr, p) := pin.SetDriveMode s.pin driveMode
  (hr, { s with pin := p, calls := s.calls ++ [PinCall.SetDriveMode driveMode] })

/-- The call `pin->get_PinNumber(&pinNumber)`. -/
def get_PinNumber (pin : IGpioPin σ) (s : Session σ) : Int × Session σ :=
  let (v, p) := pin.get_PinNumber s.pin
  (v, { s with pin := p, calls := s.calls ++ [PinCall.get_PinNumber] })

/-- The call `pin->get_SharingMode(&sharingMode)`. -/
def get_SharingMode (pin : IGpioPin σ) (s : Session σ) : GpioSharingMode × Session σ :=
  let (v, p) := pin.get_SharingMode s.pin
  (v, { s with pin := p, calls := s.calls ++ [PinCall.get_SharingMode] })

/-- The call `pin->get_DebounceTimeout(&debounceTimeout)`. -/
def get_DebounceTimeout (pin : IGpioPin σ) (s : Session σ) : Int × Session σ :=
  let (v, p) := pin.get_DebounceTimeout s.pin
  (v, { s with pin := p, calls := s.calls ++ [PinCall.get_DebounceTimeout] })

/-- The call `pin->GetDriveMode(&driveMode)`. -/
def GetDriveMode (pin : IGpioPin σ) (s : Session σ) : GpioPinDriveMode × Session σ :=
  let (v, p) := pin.GetDriveMode s.pin
  (v, { s with pin := p, calls := s.calls ++ [PinCall.GetDriveMode] })

end Session

/-- The first extraction of the loop body, `linestream >> command`, on a fresh stream
over the line: the stream afterwards and the command. -/
def readCommand (line : WString) : wistringstream × WString :=
  (wistringstream.ofLine line).extractWString []

/-- The command chain of the loop body of `ShowPrompt`, from `linestream >> command` on:
the session afterwards, and whether the loop goes on (`false` is the `return`). -/
def ShowPrompt.dispatch {σ : Type} (pin : IGpioPin σ) (s : Session σ)
    (linestream : wistringstream) (command : WString) : Session σ × Bool :=
  if command = "q".toList ∨ command = "quit".toList then (s, false)
  else if command = "h".toList ∨ command = "help".toList then (s.put Help, true)
  else if command = "w".toList ∨ command = "write".toList then
    let (linestream, value) := GpioPinValue.operator_extract linestream
    if linestream.fail then
      ((s.put "Syntax error: expecting 0 or 1\n".toList).put "Usage: write 0|1\n".toList, true)
    else
      match value with
      | none => (s, true)
      | some value =>
        let (hr, s) := Session.Write pin s value
        if FAILED hr then
          ((((s.put "Failed to write pin. hr = 0x".toList).setHex).putInteger 32 hr).put
            "\n".toList, true)
        else (s, true)
  else if command = "t".toList ∨ command = "toggle".toList then
    let s := { s with outputLatch := operator_not s.outputLatch }
    let (hr, s) := Session.Write pin s s.outputLatch
    if FAILED hr then
      ((((s.put "Failed to write pin. hr = 0x".toList).setHex).putInteger 32 hr).put
        "\n".toList, true)
    else (s, true)
  else if command = "r".toList ∨ command = "read".toList then
    let ((hr, value), s) := Session.Read pin s
    if FAILED hr then
      ((((s.put "Failed to read pin. hr = 0x".toList).setHex).putInteger 32 hr).put
        "\n".toList, true)
    else ((s.put (GpioPinValue.operator_insert value)).put "\n".toList, true)
  else if command = "setdrivemode".toList then
    let (linestream, driveMode) := GpioPinDriveMode.operator_extract linestream
    if linestream.fail then
      (s.put "Syntax error: expecting valid drive mode\n".toList, true)
    else
      match driveMode with
      | none => (s, true)
      | some driveMode =>
        let (hr, s) := Session.SetDriveMode pin s driveMode
        if FAILED hr then
          ((((s.put "Failed to set drive mode. hr = 0x".toList).setHex).putInteger 32 hr).put
            "\n".toList, true)
        else (s, true)
  else if command = "i".toList ∨ command = "info".toList then
    let (pinNumber, s) := Session.get_PinNumber pin s
    let (sharingMode, s) := Session.get_SharingMode pin s
    let (debounceTimeout, s) := Session.get_DebounceTimeout pin s
    let (driveMode, s) := Session.GetDriveMode pin s
    let s := (((s.put "        Pin Number: ".toList).setDec).putInteger 32 pinNumber).put
      "\n".toList
    let s := ((s.put "      Sharing Mode: ".toList).put
      (GpioSharingMode.operator_insert sharingMode)).put "\n".toList
    let s := ((s.put "  Debounce Timeout: ".toList).putInteger 64 debounceTimeout).put
      "\n".toList
    let s := ((s.put "        Drive Mode: ".toList).put
      (GpioPinDriveMode.operator_insert driveMode)).put "\n".toList
    (s, true)
  else if command.isEmpty then (s, true)
  else
    (((s.put "Unrecognized command: ".toList).put command).put
      ". Type 'help' for command usage.\n".toList, true)

/-- The body of the loop of `ShowPrompt` from the line that `std::getline` delivered on:
the session afterwards, and whether the loop goes on (`false` is the `return`). -/
def ShowPrompt.body {σ : Type} (pin : IGpioPin σ) (s : Session σ) (line : WString) :
    Session σ × Bool :=
  ShowPrompt.dispatch pin s (readCommand line).1 (readCommand line).2

/-- The loop of `ShowPrompt` over the lines that `std::wcin` will deliver: each round
prints the prompt and reads a line; the loop ends when there is none left or when the
body returns. The result is the session at the `return`. -/
def ShowPrompt.loop {σ : Type} (pin : IGpioPin σ) (s : Session σ) : List WString → Session σ
  | [] => s.put "> ".toList
  | line :: rest =>
    match ShowPrompt.body pin (s.put "> ".toList) line with
    | (s1, true) => ShowPrompt.loop pin s1 rest
    | (s1, false) => s1

/-- The session at the entry of `ShowPrompt`: `outputLatch` is `GpioPinValue_High`;
`wmain` has left `std::wcout` in `dec`. -/
def Session.start {σ : Type} (pin0 : σ) : Session σ :=
  { outputLatch := GpioPinValue_High, pin := pin0, wcout := [], hex := false, calls := [] }

/-- The function `ShowPrompt`, run on a pin in state `pin0` and on the lines of the
standard input. -/
def ShowPrompt {σ : Type} (pin : IGpioPin σ) (pin0 : σ) (lines : List WString) : Session σ :=
  ShowPrompt.loop pin (Session.start pin0) lines

/-! ## Vocabulary of the specification -/

/-- The first white-space-delimited token of a text; empty when the text has none. -/
def firstToken (text : WString) : WString :=
  (text.dropWhile iswspace).takeWhile (fun c => !iswspace c)

/-- What follows the first white-space-delimited token of a text. -/
def afterFirstToken (text : WString) : WString :=
  (text.dropWhile iswspace).dropWhile (fun c => !iswspace c)

/-- The command of an input line: its first token. -/
def commandOf (line : WString) : WString := firstToken line

/-- The argument of an input line: its second token; empty when it is missing. -/
def argumentOf (line : WString) : WString := firstToken (afterFirstToken line)

/-- A token without its leading sign, if it has one. -/
def unsigned : WString → WString
  | '-' :: r => r
  | '+' :: r => r
  | r => r

/-- The decimal digits a token begins with, after its optional sign. -/
def leadingDigits (token : WString) : WString := (unsigned token).takeWhile iswdigit

/-- A token is an integer literal: an optional sign followed by one or more decimal digits
and nothing else. -/
def isIntegerToken (token : WString) : Bool :=
  !(unsigned token).isEmpty && (unsigned token).all iswdigit

/-- The integer a token begins with: the value of its leading digits, negated after a
minus sign; none when the token has no leading digit (it is empty, or starts with something
else). -/
def leadingInteger (token : WString) : Option Int :=
  if (leadingDigits token).isEmpty then none
  else if token.head? = some '-' then some (-(decimalValue (leadingDigits token) : Int))
  else some (decimalValue (leadingDigits token) : Int)

/-- The pin value a token begins with: `Low` when it begins with an integer of value 0,
`High` when it begins with an integer of value 1, none otherwise. -/
def leadingPinValue (token : WString) : Option GpioPinValue :=
  match leadingInteger token with
  | none => none
  | some v =>
    if v = 0 then some GpioPinValue_Low
    else if v = 1 then some GpioPinValue_High
    else none

/-- Two texts are equal up to the letter case of each character: they have the same
length and each character of the first is the lower-case or the upper-case form of the
character of the second at the same place. -/
def equalUpToCase : WString → WString → Bool
  | [], [] => true
  | t :: ts, n :: ns => (t == n.toLower || t == n.toUpper) && equalUpToCase ts ns
  | _, _ => false

/-- The drive mode a text names, up to letter case: one of `input`, `output`,
`inputPullUp`, `inputPullDown`. -/
def driveModeNamed (text : WString) : Option GpioPinDriveMode :=
  if equalUpToCase text "input".toList then some GpioPinDriveMode_Input
  else if equalUpToCase text "output".toList then some GpioPinDriveMode_Output
  else if equalUpToCase text "inputPullUp".toList then some GpioPinDriveMode_InputPullUp
  else if equalUpToCase text "inputPullDown".toList then some GpioPinDriveMode_InputPullDown
  else none

/-- The names that the command chain of `ShowPrompt` recognises. -/
def commandNames : List WString :=
  ["q".toList, "quit".toList, "h".toList, "help".toList, "w".toList, "write".toList,
   "t".toList, "toggle".toList, "r".toList, "read".toList, "setdrivemode".toList,
   "i".toList, "info".toList]

/-- The line is a quit command: its first token is `q` or `quit`. -/
def isQuit (line : WString) : Bool :=
  commandOf line == "q".toList || commandOf line == "quit".toList

/-- The line is a toggle command: its first token is `t` or `toggle`. -/
def isToggle (line : WString) : Bool :=
  commandOf line == "t".toList || commandOf line == "toggle".toList

/-- The lines of the input that the loop processes as commands: those before the first
quit command. -/
def processed (lines : List WString) : List WString :=
  lines.takeWhile (fun line => !isQuit line)

/-- The number of toggle commands among the lines the loop processes. -/
def toggleCount (lines : List WString) : Nat :=
  (processed lines).countP isToggle

/-- A 32-bit integer in hexadecimal: the lower-case hexadecimal digits of its two's
complement bit pattern, without prefix and without leading zeros. -/
def hexText (code : Int) : WString := Nat.toDigits 16 (code % 2 ^ 32).toNat

/-- An integer in decimal: a minus sign for a negative one, then the decimal digits of its
magnitude. -/
def decimalText (v : Int) : WString :=
  if v < 0 then '-' :: Nat.toDigits 10 v.natAbs else Nat.toDigits 10 v.natAbs

/-- The diagnostic for a failed pin operation: `Failed to `, what was attempted, `. hr = 0x`,
the failure code in hexadecimal, and a newline. -/
def failureLine (what : WString) (code : HRESULT) : WString :=
  "Failed to ".toList ++ what ++ ". hr = 0x".toList ++ hexText code ++ "\n".toList

/-- What the read command prints for a result of the pin's read: the failure diagnostic
for a failure code, otherwise the formatted pin value and a newline. -/
def readOutput (result : HRESULT × GpioPinValue) : WString :=
  if FAILED result.1 then failureLine "read pin".toList result.1
  else GpioPinValue.operator_insert result.2 ++ "\n".toList

/-- The short alias and the long form of each command that has both. -/
def aliases : List (WString × WString) :=
  [("q".toList, "quit".toList), ("h".toList, "help".toList), ("w".toList, "write".toList),
   ("t".toList, "toggle".toList), ("r".toList, "read".toList), ("i".toList, "info".toList)]

/-- A line with its first token replaced by another command name: the leading white space
and everything after the first token are kept. -/
def replaceCommand (line name : WString) : WString :=
  line.takeWhile iswspace ++ name ++ afterFirstToken line

/-- A text is a single line: it ends in a newline and has no other newline. -/
def isSingleLine (text : WString) : Bool :=
  text.getLast? == some '\n' && text.count '\n' == 1

/-! ## Pins used in the examples -/

/-- A stateless pin: every `Write` returns `hrWrite`, every `Read` returns `hrRead` and
leaves `level` in the out-parameter, every `SetDriveMode` returns `hrSet`. -/
def constPin (hrWrite hrRead hrSet : HRESULT) (level : GpioPinValue) : IGpioPin Unit where
  Write := fun _ _ => (hrWrite, ())
  Read := fun _ => ((hrRead, level), ())
  SetDriveMode := fun _ _ => (hrSet, ())
  get_PinNumber := fun _ => (47, ())
  get_SharingMode := fun _ => (GpioSharingMode_Exclusive, ())
  get_DebounceTimeout := fun _ => (0, ())
  GetDriveMode := fun _ => (GpioPinDriveMode_Input, ())

/-- The failure code `E_FAIL`, 0x80004005 as a signed 32-bit integer. -/
def E_FAIL : HRESULT := -2147467259

/-- The success code `S_OK`. -/
def S_OK : HRESULT := 0

/-- A pin handle whose state is the drive mode last set: every `SetDriveMode` succeeds and
stores its mode, `GetDriveMode` returns the stored mode; writes and reads succeed. -/
def modePin : IGpioPin GpioPinDriveMode where
  Write := fun mode _ => (S_OK, mode)
  Read := fun mode => ((S_OK, GpioPinValue_Low), mode)
  SetDriveMode := fun _ driveMode => (S_OK, driveMode)
  get_PinNumber := fun mode => (47, mode)
  get_SharingMode := fun mode => (GpioSharingMode_SharedReadOnly, mode)
  get_DebounceTimeout := fun mode => (0, mode)
  GetDriveMode := fun mode => (mode, mode)

/-- A fake pin handle whose state is the level last written: every `Write` succeeds and
stores its value, every `Read` succeeds and returns the stored level. -/
def fakePin : IGpioPin GpioPinValue where
  Write := fun _ value => (S_OK, value)
  Read := fun level => ((S_OK, level), level)
  SetDriveMode := fun level _ => (S_OK, level)
  get_PinNumber := fun level => (47, level)
  get_SharingMode := fun level => (GpioSharingMode_Exclusive, level)
  get_DebounceTimeout := fun level => (0, level)
  GetDriveMode := fun level => (GpioPinDriveMode_Output, level)

/-! ## Characters and tokens -/

theorem char_eq_of_toNat {a b : Char} (h : a.toNat = b.toNat) : a = b := by
  have := congrArg Char.ofNat h
  simpa using this

theorem toNat_ofNat_small (n : Nat) (h : n < 0xd800) : (Char.ofNat n).toNat = n := by
  have hv : n.isValidChar := Or.inl h
  simp only [Char.ofNat, hv, Char.toNat, Char.ofNatAux, dite_true]
  rfl

theorem dropWhile_head_not {α : Type} (p : α → Bool) (l : List α) (c : α) (r : List α)
    (h : l.dropWhile p = c :: r) : p c = false := by
  induction l with
  | nil => simp at h
  | cons a t ih =>
    rw [List.dropWhile_cons] at h
    split at h
    · exact ih h
    · rename_i hp
      injection h with h1 h2
      subst h1
      simpa using hp

theorem readCommand_snd (line : WString) : (readCommand line).2 = commandOf line := by
  unfold readCommand commandOf firstToken wistringstream.extractWString wistringstream.sentry
    wistringstream.ofLine wistringstream.good
  cases h : List.dropWhile iswspace line <;> simp [h]

theorem readCommand_fst (line : WString) (h : commandOf line ≠ []) :
    (readCommand line).1 = ⟨afterFirstToken line, (afterFirstToken line).isEmpty, false⟩ := by
  unfold commandOf firstToken at h
  unfold readCommand afterFirstToken wistringstream.extractWString wistringstream.sentry
    wistringstream.ofLine wistringstream.good
  cases h1 : List.dropWhile iswspace line with
  | nil => simp [h1] at h
  | cons c r => simp [h1]

theorem takeWhile_takeWhile_of_imp {α : Type} (p q : α → Bool) (hpq : ∀ a, p a = true → q a = true)
    (l : List α) : (l.takeWhile q).takeWhile p = l.takeWhile p := by
  induction l with
  | nil => rfl
  | cons a t ih =>
    by_cases hq : q a = true
    · by_cases hp : p a = true
      · simp [List.takeWhile_cons, hq, hp, ih]
      · simp [List.takeWhile_cons, hq, hp]
    · have hp : ¬ p a = true := fun h => hq (hpq a h)
      simp [List.takeWhile_cons, hq, hp]

theorem iswdigit_not_space (c : Char) (h : iswdigit c = true) : (!iswspace c) = true := by
  simp only [iswdigit, Bool.and_eq_true, decide_eq_true_eq] at h
  have h48 : '0'.toNat = 48 := rfl
  rw [h48] at h
  simp only [iswspace, Bool.not_eq_true', Bool.or_eq_false_iff, beq_eq_false_iff_ne, ne_eq]
  refine ⟨⟨⟨⟨⟨?_, ?_⟩, ?_⟩, ?_⟩, ?_⟩, ?_⟩ <;> intro hc <;> subst hc <;> revert h <;> decide

theorem unsigned_takeWhile (buf : WString) :
    unsigned (buf.takeWhile (fun c => !iswspace c)) =
      (unsigned buf).takeWhile (fun c => !iswspace c) := by
  cases buf with
  | nil => rfl
  | cons c r =>
    by_cases hm : c = '-'
    · subst hm
      have : iswspace '-' = false := by decide
      simp [List.takeWhile_cons, this, unsigned]
    · by_cases hp : c = '+'
      · subst hp
        have : iswspace '+' = false := by decide
        simp [List.takeWhile_cons, this, unsigned]
      · have hu : ∀ l : WString, unsigned (c :: l) = c :: l := by
          intro l
          unfold unsigned
          split
          · rename_i h; injection h with h1 _; exact absurd h1 hm
          · rename_i h; injection h with h1 _; exact absurd h1 hp
          · rfl
        rw [hu]
        by_cases hs : iswspace c = true
        · simp [List.takeWhile_cons, hs, unsigned]
        · simp [List.takeWhile_cons, hs, hu]

theorem leadingDigits_firstToken (buf : WString) :
    leadingDigits (buf.takeWhile (fun c => !iswspace c)) = (unsigned buf).takeWhile iswdigit := by
  unfold leadingDigits
  rw [unsigned_takeWhile]
  exact takeWhile_takeWhile_of_imp _ _ iswdigit_not_space _

theorem unsigned_eq_match (buf : WString) :
    (match buf with
      | '-' :: r => r
      | '+' :: r => r
      | r => r) = unsigned buf := by
  unfold unsigned
  rfl

theorem pinValue_extract_argument (rest : WString) :
    (GpioPinValue.operator_extract ⟨rest, rest.isEmpty, false⟩).2 =
        leadingPinValue (firstToken rest) ∧
      (GpioPinValue.operator_extract ⟨rest, rest.isEmpty, false⟩).1.fail =
        (GpioPinValue.operator_extract ⟨rest, rest.isEmpty, false⟩).2.isNone := by
  unfold GpioPinValue.operator_extract wistringstream.extractInt wistringstream.sentry
    wistringstream.good firstToken
  cases rest with
  | nil => simp [leadingPinValue, leadingInteger, leadingDigits, unsigned, wistringstream.fail]
  | cons a t =>
    cases hdw : List.dropWhile iswspace (a :: t) with
    | nil =>
      simp [hdw, leadingPinValue, leadingInteger, leadingDigits, unsigned, wistringstream.fail]
    | cons c r =>
      have hc : iswspace c = false := dropWhile_head_not _ _ _ _ hdw
      have hhead : ((c :: r).takeWhile (fun c => !iswspace c)).head? = some c := by
        simp [List.takeWhile_cons, hc]
      have hdig := leadingDigits_firstToken (c :: r)
      simp only [List.isEmpty_cons, Bool.not_false, Bool.and_self, if_true, hdw,
        unsigned_eq_match]
      by_cases hds : (unsigned (c :: r)).takeWhile iswdigit = []
      · simp [hds, leadingPinValue, leadingInteger, hdig, wistringstream.fail]
      · simp only [List.isEmpty_eq_true, hds, if_false, List.head?_cons, leadingPinValue,
          leadingInteger, hdig, hhead]
        generalize decimalValue (List.takeWhile iswdigit (unsigned (c :: r))) = n
        by_cases hm : c = '-'
        · subst hm
          by_cases h0 : n = 0
          · subst h0
            simp [INT_MIN, INT_MAX, GpioPinValue_Low, wistringstream.fail]
          · have e1 : ¬ (-(n : Int) = 0) := by omega
            have e2 : ¬ (-(n : Int) = 1) := by omega
            by_cases hr : INT_MIN ≤ -(n : Int) ∧ -(n : Int) ≤ INT_MAX
            · simp [hr, e1, e2, h0, GpioPinValue_Low, GpioPinValue_High,
                wistringstream.fail, wistringstream.clearToFail]
            · simp [hr, e1, e2, h0, wistringstream.fail]
        · by_cases h0 : n = 0
          · subst h0
            simp [hm, INT_MIN, INT_MAX, GpioPinValue_Low, wistringstream.fail]
          · by_cases h1 : n = 1
            · subst h1
              simp [hm, INT_MIN, INT_MAX, GpioPinValue_Low, GpioPinValue_High,
                wistringstream.fail]
            · have e3 : ¬ ((n : Int) = 0) := by omega
              have e4 : ¬ ((n : Int) = 1) := by omega
              by_cases hr : INT_MIN ≤ (n : Int) ∧ (n : Int) ≤ INT_MAX
              · simp [hm, hr, e3, e4, h0, h1, GpioPinValue_Low, GpioPinValue_High,
                  wistringstream.fail, wistringstream.clearToFail]
              · simp [hm, hr, e3, e4, h0, h1, wistringstream.fail]

/-! ## Case-insensitive comparison -/

theorem ascii_towlower_toNat (c : Char) :
    (ascii_towlower c).toNat = if 65 ≤ c.toNat ∧ c.toNat ≤ 90 then c.toNat + 32 else c.toNat := by
  unfold ascii_towlower
  have hA : 'A'.toNat = 65 := rfl
  have hZ : 'Z'.toNat = 90 := rfl
  have ha : 'a'.toNat = 97 := rfl
  rw [hA, hZ, ha]
  split
  · rw [toNat_ofNat_small _ (by omega)]; omega
  · rfl

theorem toLower_toNat (c : Char) :
    c.toLower.toNat = if 65 ≤ c.toNat ∧ c.toNat ≤ 90 then c.toNat + 32 else c.toNat := by
  unfold Char.toLower
  simp only [ge_iff_le]
  split
  · rw [toNat_ofNat_small _ (by omega)]
  · rfl

theorem toUpper_toNat (c : Char) :
    c.toUpper.toNat = if 97 ≤ c.toNat ∧ c.toNat ≤ 122 then c.toNat - 32 else c.toNat := by
  unfold Char.toUpper
  simp only [ge_iff_le]
  split
  · rw [toNat_ofNat_small _ (by omega)]
  · rfl

theorem char_eq_iff_toNat (a b : Char) : a = b ↔ a.toNat = b.toNat :=
  ⟨fun h => by rw [h], char_eq_of_toNat⟩

theorem towlower_eq_iff (x n : Char) :
    ascii_towlower x = ascii_towlower n ↔ (x = n.toLower ∨ x = n.toUpper) := by
  rw [char_eq_iff_toNat, char_eq_iff_toNat x, char_eq_iff_toNat x, ascii_towlower_toNat,
    ascii_towlower_toNat, toLower_toNat, toUpper_toNat]
  split <;> split <;> split <;> omega

theorem ascii_towlower_ne_zero (x : Char) (hx : x.toNat ≠ 0) : (ascii_towlower x).toNat ≠ 0 := by
  rw [ascii_towlower_toNat]; split <;> omega

theorem wcsicmp_eq_zero_iff (name : WString) (hname : ∀ n ∈ name, n.toNat ≠ 0)
    (a : WString) (ha : ∀ x ∈ a, x.toNat ≠ 0) :
    wcsicmp a name = 0 ↔ equalUpToCase a name = true := by
  induction name generalizing a with
  | nil =>
    cases a with
    | nil => simp [wcsicmp, equalUpToCase]
    | cons x t =>
      have hx := ascii_towlower_ne_zero x (ha x (List.mem_cons_self _ _))
      simp only [wcsicmp, equalUpToCase]
      simp
      omega
  | cons n ns ih =>
    have hn := ascii_towlower_ne_zero n (hname n (List.mem_cons_self _ _))
    have hns : ∀ m ∈ ns, m.toNat ≠ 0 := fun m hm => hname m (List.mem_cons_of_mem _ hm)
    cases a with
    | nil =>
      simp only [wcsicmp, equalUpToCase]
      simp
      omega
    | cons x t =>
      have hx0 := ascii_towlower_ne_zero x (ha x (List.mem_cons_self _ _))
      have ht : ∀ y ∈ t, y.toNat ≠ 0 := fun y hy => ha y (List.mem_cons_of_mem _ hy)
      have hiff := towlower_eq_iff x n
      simp only [wcsicmp, equalUpToCase, Bool.and_eq_true, Bool.or_eq_true, beq_iff_eq]
      by_cases heq : ascii_towlower x = ascii_towlower n
      · rw [if_pos ⟨hx0, heq⟩, ih hns t ht]
        simp [hiff.1 heq]
      · have hne : (ascii_towlower x).toNat ≠ (ascii_towlower n).toNat :=
          fun h => heq (char_eq_of_toNat h)
        have hno : ¬ (x = n.toLower ∨ x = n.toUpper) := fun h => heq (hiff.2 h)
        simp only [heq, and_false, if_false, hno, false_and, iff_false]
        omega

theorem c_str_no_nul (s : WString) : ∀ x ∈ c_str s, x.toNat ≠ 0 := by
  intro x hx h
  have h1 := List.mem_takeWhile_imp hx
  have : x = '\x00' := char_eq_of_toNat (by rw [h]; rfl)
  subst this
  simp at h1

theorem driveMode_extract_value (is : wistringstream) :
    (GpioPinDriveMode.operator_extract is).2 = driveModeNamed (c_str (firstToken is.buf)) ∧
      (GpioPinDriveMode.operator_extract is).1.fail =
        (GpioPinDriveMode.operator_extract is).2.isNone := by
  have hw : ∀ name : WString, (∀ n ∈ name, n.toNat ≠ 0) → ∀ tok : WString,
      (wcsicmp (c_str tok) name = 0) = (equalUpToCase (c_str tok) name = true) :=
    fun name hname tok => propext (wcsicmp_eq_zero_iff name hname _ (c_str_no_nul tok))
  have h1 := hw "input".toList (by decide)
  have h2 := hw "output".toList (by decide)
  have h3 := hw "inputPullUp".toList (by decide)
  have h4 := hw "inputPullDown".toList (by decide)
  unfold GpioPinDriveMode.operator_extract wistringstream.extractWString wistringstream.sentry
    wistringstream.good wistringstream.clear firstToken driveModeNamed
  cases hdw : List.dropWhile iswspace is.buf with
  | nil =>
    simp only [Bool.not_false, Bool.and_self, if_true, h1, h2, h3, h4, List.takeWhile_nil]
    simp +decide [wistringstream.fail, wistringstream.clearToFail]
  | cons c r =>
    simp only [Bool.not_false, Bool.and_self, if_true, h1, h2, h3, h4]
    split
    · simp [wistringstream.fail]
    · split
      · simp [wistringstream.fail]
      · split
        · simp [wistringstream.fail]
        · split
          · simp [wistringstream.fail]
          · simp [wistringstream.fail, wistringstream.clearToFail]

variable {σ : Type}

/-! ## The session fields under the session operations -/

@[simp] theorem Session.put_outputLatch (s : Session σ) (text : WString) :
    (s.put text).outputLatch = s.outputLatch := rfl

@[simp] theorem Session.put_calls (s : Session σ) (text : WString) :
    (s.put text).calls = s.calls := rfl

@[simp] theorem Session.put_pin (s : Session σ) (text : WString) :
    (s.put text).pin = s.pin := rfl

@[simp] theorem Session.put_wcout (s : Session σ) (text : WString) :
    (s.put text).wcout = s.wcout ++ text := rfl

@[simp] theorem Session.put_hex (s : Session σ) (text : WString) :
    (s.put text).hex = s.hex := rfl

@[simp] theorem Session.setHex_outputLatch (s : Session σ) :
    s.setHex.outputLatch = s.outputLatch := rfl

@[simp] theorem Session.setHex_calls (s : Session σ) : s.setHex.calls = s.calls := rfl

@[simp] theorem Session.setHex_pin (s : Session σ) : s.setHex.pin = s.pin := rfl

@[simp] theorem Session.setHex_wcout (s : Session σ) : s.setHex.wcout = s.wcout := rfl

@[simp] theorem Session.setHex_hex (s : Session σ) : s.setHex.hex = true := rfl

@[simp] theorem Session.setDec_outputLatch (s : Session σ) :
    s.setDec.outputLatch = s.outputLatch := rfl

@[simp] theorem Session.setDec_calls (s : Session σ) : s.setDec.calls = s.calls := rfl

@[simp] theorem Session.setDec_pin (s : Session σ) : s.setDec.pin = s.pin := rfl

@[simp] theorem Session.setDec_wcout (s : Session σ) : s.setDec.wcout = s.wcout := rfl

@[simp] theorem Session.setDec_hex (s : Session σ) : s.setDec.hex = false := rfl

@[simp] theorem Session.putInteger_outputLatch (s : Session σ) (w : Nat) (v : Int) :
    (s.putInteger w v).outputLatch = s.outputLatch := rfl

@[simp] theorem Session.putInteger_calls (s : Session σ) (w : Nat) (v : Int) :
    (s.putInteger w v).calls = s.calls := rfl

@[simp] theorem Session.putInteger_pin (s : Session σ) (w : Nat) (v : Int) :
    (s.putInteger w v).pin = s.pin := rfl

@[simp] theorem Session.putInteger_wcout (s : Session σ) (w : Nat) (v : Int) :
    (s.putInteger w v).wcout = s.wcout ++ formatInteger s.hex w v := rfl

@[simp] theorem Session.putInteger_hex (s : Session σ) (w : Nat) (v : Int) :
    (s.putInteger w v).hex = s.hex := rfl

@[simp] theorem Session.Write_fst (pin : IGpioPin σ) (s : Session σ) (v : GpioPinValue) :
    (Session.Write pin s v).1 = (pin.Write s.pin v).1 := rfl

@[simp] theorem Session.Write_outputLatch (pin : IGpioPin σ) (s : Session σ) (v : GpioPinValue) :
    (Session.Write pin s v).2.outputLatch = s.outputLatch := rfl

@[simp] theorem Session.Write_calls (pin : IGpioPin σ) (s : Session σ) (v : GpioPinValue) :
    (Session.Write pin s v).2.calls = s.calls ++ [PinCall.Write v] := rfl

@[simp] theorem Session.Write_pin (pin : IGpioPin σ) (s : Session σ) (v : GpioPinValue) :
    (Session.Write pin s v).2.pin = (pin.Write s.pin v).2 := rfl

@[simp] theorem Session.Write_wcout (pin : IGpioPin σ) (s : Session σ) (v : GpioPinValue) :
    (Session.Write pin s v).2.wcout = s.wcout := rfl

@[simp] theorem Session.Write_hex (pin : IGpioPin σ) (s : Session σ) (v : GpioPinValue) :
    (Session.Write pin s v).2.hex = s.hex := rfl

@[simp] theorem Session.Read_fst (pin : IGpioPin σ) (s : Session σ) :
    (Session.Read pin s).1 = (pin.Read s.pin).1 := rfl

@[simp] theorem Session.Read_outputLatch (pin : IGpioPin σ) (s : Session σ) :
    (Session.Read pin s).2.outputLatch = s.outputLatch := rfl

@[simp] theorem Session.Read_calls (pin : IGpioPin σ) (s : Session σ) :
    (Session.Read pin s).2.calls = s.calls ++ [PinCall.Read] := rfl

@[simp] theorem Session.Read_pin (pin : IGpioPin σ) (s : Session σ) :
    (Session.Read pin s).2.pin = (pin.Read s.pin).2 := rfl

@[simp] theorem Session.Read_wcout (pin : IGpioPin σ) (s : Session σ) :
    (Session.Read pin s).2.wcout = s.wcout := rfl

@[simp] theorem Session.Read_hex (pin : IGpioPin σ) (s : Session σ) :
    (Session.Read pin s).2.hex = s.hex := rfl

@[simp] theorem Session.SetDriveMode_fst (pin : IGpioPin σ) (s : Session σ)
    (m : GpioPinDriveMode) : (Session.SetDriveMode pin s m).1 = (pin.SetDriveMode s.pin m).1 := rfl

@[simp] theorem Session.SetDriveMode_outputLatch (pin : IGpioPin σ) (s : Session σ)
    (m : GpioPinDriveMode) : (Session.SetDriveMode pin s m).2.outputLatch = s.outputLatch := rfl

@[simp] theorem Session.SetDriveMode_calls (pin : IGpioPin σ) (s : Session σ)
    (m : GpioPinDriveMode) :
    (Session.SetDriveMode pin s m).2.calls = s.calls ++ [PinCall.SetDriveMode m] := rfl

@[simp] theorem Session.SetDriveMode_pin (pin : IGpioPin σ) (s : Session σ)
    (m : GpioPinDriveMode) : (Session.SetDriveMode pin s m).2.pin = (pin.SetDriveMode s.pin m).2 := rfl

@[simp] theorem Session.SetDriveMode_wcout (pin : IGpioPin σ) (s : Session σ)
    (m : GpioPinDriveMode) : (Session.SetDriveMode pin s m).2.wcout = s.wcout := rfl

@[simp] theorem Session.SetDriveMode_hex (pin : IGpioPin σ) (s : Session σ)
    (m : GpioPinDriveMode) : (Session.SetDriveMode pin s m).2.hex = s.hex := rfl

@[simp] theorem Session.get_PinNumber_outputLatch (pin : IGpioPin σ) (s : Session σ) :
    (Session.get_PinNumber pin s).2.outputLatch = s.outputLatch := rfl

@[simp] theorem Session.get_SharingMode_outputLatch (pin : IGpioPin σ) (s : Session σ) :
    (Session.get_SharingMode pin s).2.outputLatch = s.outputLatch := rfl

@[simp] theorem Session.get_DebounceTimeout_outputLatch (pin : IGpioPin σ) (s : Session σ) :
    (Session.get_DebounceTimeout pin s).2.outputLatch = s.outputLatch := rfl

@[simp] theorem Session.GetDriveMode_outputLatch (pin : IGpioPin σ) (s : Session σ) :
    (Session.GetDriveMode pin s).2.outputLatch = s.outputLatch := rfl

/-! ## The command chain, branch by branch -/

theorem body_eq_dispatch (pin : IGpioPin σ) (s : Session σ) (line : WString) :
    ShowPrompt.body pin s line = ShowPrompt.dispatch pin s (readCommand line).1 (commandOf line) := by
  unfold ShowPrompt.body
  rw [readCommand_snd]

theorem dispatch_quit (pin : IGpioPin σ) (s : Session σ) (ls : wistringstream)
    (command : WString) (h : command = "q".toList ∨ command = "quit".toList) :
    ShowPrompt.dispatch pin s ls command = (s, false) := by
  rcases h with rfl | rfl <;> simp +decide [ShowPrompt.dispatch]

theorem dispatch_write (pin : IGpioPin σ) (s : Session σ) (ls : wistringstream)
    (command : WString) (h : command = "w".toList ∨ command = "write".toList) :
    ShowPrompt.dispatch pin s ls command =
      (if (GpioPinValue.operator_extract ls).1.fail then
        ((s.put "Syntax error: expecting 0 or 1\n".toList).put "Usage: write 0|1\n".toList, true)
      else
        match (GpioPinValue.operator_extract ls).2 with
        | none => (s, true)
        | some value =>
          if FAILED (Session.Write pin s value).1 then
            (((((Session.Write pin s value).2.put "Failed to write pin. hr = 0x".toList).setHex).putInteger
              32 (Session.Write pin s value).1).put "\n".toList, true)
          else ((Session.Write pin s value).2, true)) := by
  rcases h with rfl | rfl <;> simp +decide [ShowPrompt.dispatch]

theorem dispatch_toggle (pin : IGpioPin σ) (s : Session σ) (ls : wistringstream)
    (command : WString) (h : command = "t".toList ∨ command = "toggle".toList) :
    ShowPrompt.dispatch pin s ls command =
      (if FAILED (pin.Write s.pin (operator_not s.outputLatch)).1 then
        (({ outputLatch := operator_not s.outputLatch, pin := (pin.Write s.pin (operator_not s.outputLatch)).2,
            wcout := s.wcout ++ "Failed to write pin. hr = 0x".toList ++
              formatInteger true 32 (pin.Write s.pin (operator_not s.outputLatch)).1 ++ "\n".toList,
            hex := true,
            calls := s.calls ++ [PinCall.Write (operator_not s.outputLatch)] } : Session σ), true)
      else
        (({ outputLatch := operator_not s.outputLatch, pin := (pin.Write s.pin (operator_not s.outputLatch)).2,
            wcout := s.wcout, hex := s.hex,
            calls := s.calls ++ [PinCall.Write (operator_not s.outputLatch)] } : Session σ), true)) := by
  rcases h with rfl | rfl <;>
    simp +decide [ShowPrompt.dispatch, Session.Write, Session.put, Session.setHex, Session.putInteger]

theorem dispatch_setdrivemode (pin : IGpioPin σ) (s : Session σ) (ls : wistringstream)
    (command : WString) (h : command = "setdrivemode".toList) :
    ShowPrompt.dispatch pin s ls command =
      (if (GpioPinDriveMode.operator_extract ls).1.fail then
        (s.put "Syntax error: expecting valid drive mode\n".toList, true)
      else
        match (GpioPinDriveMode.operator_extract ls).2 with
        | none => (s, true)
        | some driveMode =>
          if FAILED (Session.SetDriveMode pin s driveMode).1 then
            (((((Session.SetDriveMode pin s driveMode).2.put
              "Failed to set drive mode. hr = 0x".toList).setHex).putInteger
              32 (Session.SetDriveMode pin s driveMode).1).put "\n".toList, true)
          else ((Session.SetDriveMode pin s driveMode).2, true)) := by
  subst h
  simp +decide [ShowPrompt.dispatch]

theorem dispatch_unrecognized (pin : IGpioPin σ) (s : Session σ) (ls : wistringstream)
    (command : WString) (hne : command ≠ []) (h : command ∉ commandNames) :
    ShowPrompt.dispatch pin s ls command =
      (((s.put "Unrecognized command: ".toList).put command).put
        ". Type 'help' for command usage.\n".toList, true) := by
  simp only [commandNames, List.mem_cons, List.mem_singleton, not_or, List.not_mem_nil,
    not_false_eq_true, and_true] at h
  obtain ⟨h1, h2, h3, h4, h5, h6, h7, h8, h9, h10, h11, h12, h13⟩ := h
  have hemp : ¬ (command.isEmpty = true) := by simpa using hne
  unfold ShowPrompt.dispatch
  rw [if_neg (not_or.2 ⟨h1, h2⟩), if_neg (not_or.2 ⟨h3, h4⟩), if_neg (not_or.2 ⟨h5, h6⟩),
    if_neg (not_or.2 ⟨h7, h8⟩), if_neg (not_or.2 ⟨h9, h10⟩), if_neg h11,
    if_neg (not_or.2 ⟨h12, h13⟩), if_neg hemp]

theorem dispatch_help (pin : IGpioPin σ) (s : Session σ) (ls : wistringstream)
    (command : WString) (h : command = "h".toList ∨ command = "help".toList) :
    ShowPrompt.dispatch pin s ls command = (s.put Help, true) := by
  rcases h with rfl | rfl <;> simp +decide [ShowPrompt.dispatch]

theorem dispatch_read (pin : IGpioPin σ) (s : Session σ) (ls : wistringstream)
    (command : WString) (h : command = "r".toList ∨ command = "read".toList) :
    ShowPrompt.dispatch pin s ls command =
      (if FAILED (Session.Read pin s).1.1 then
        (((((Session.Read pin s).2.put "Failed to read pin. hr = 0x".toList).setHex).putInteger
          32 (Session.Read pin s).1.1).put "\n".toList, true)
      else
        (((Session.Read pin s).2.put (GpioPinValue.operator_insert (Session.Read pin s).1.2)).put
          "\n".toList, true)) := by
  rcases h with rfl | rfl <;> simp +decide [ShowPrompt.dispatch]

theorem dispatch_info (pin : IGpioPin σ) (s : Session σ) (ls : wistringstream)
    (command : WString) (h : command = "i".toList ∨ command = "info".toList) :
    ShowPrompt.dispatch pin s ls command =
      (let r1 := Session.get_PinNumber pin s
       let r2 := Session.get_SharingMode pin r1.2
       let r3 := Session.get_DebounceTimeout pin r2.2
       let r4 := Session.GetDriveMode pin r3.2
       let s1 := (((r4.2.put "        Pin Number: ".toList).setDec).putInteger 32 r1.1).put
         "\n".toList
       let s2 := ((s1.put "      Sharing Mode: ".toList).put
         (GpioSharingMode.operator_insert r2.1)).put "\n".toList
       let s3 := ((s2.put "  Debounce Timeout: ".toList).putInteger 64 r3.1).put "\n".toList
       (((s3.put "        Drive Mode: ".toList).put
         (GpioPinDriveMode.operator_insert r4.1)).put "\n".toList, true)) := by
  rcases h with rfl | rfl <;> simp +decide [ShowPrompt.dispatch]

theorem dispatch_empty (pin : IGpioPin σ) (s : Session σ) (ls : wistringstream) :
    ShowPrompt.dispatch pin s ls [] = (s, true) := by
  simp +decide [ShowPrompt.dispatch]

theorem command_cases (command : WString) :
    (command = "q".toList ∨ command = "quit".toList) ∨
    (command = "h".toList ∨ command = "help".toList) ∨
    (command = "w".toList ∨ command = "write".toList) ∨
    (command = "t".toList ∨ command = "toggle".toList) ∨
    (command = "r".toList ∨ command = "read".toList) ∨
    command = "setdrivemode".toList ∨
    (command = "i".toList ∨ command = "info".toList) ∨
    command = [] ∨
    (command ≠ [] ∧ command ∉ commandNames) := by
  simp only [commandNames, List.mem_cons, List.mem_singleton, List.not_mem_nil, or_false]
  tauto

theorem dispatch_running_iff (pin : IGpioPin σ) (s : Session σ) (ls : wistringstream)
    (command : WString) :
    (ShowPrompt.dispatch pin s ls command).2 = false ↔
      (command = "q".toList ∨ command = "quit".toList) := by
  constructor
  · intro h
    by_contra hq
    rcases command_cases command with c | c | c | c | c | c | c | c | c
    · exact hq c
    · rw [dispatch_help pin s ls command c] at h; simp at h
    · rw [dispatch_write pin s ls command c] at h
      revert h; split
      · simp
      · split
        · simp
        · split <;> simp
    · rw [dispatch_toggle pin s ls command c] at h
      revert h; split <;> simp
    · rw [dispatch_read pin s ls command c] at h
      revert h; split <;> simp
    · rw [dispatch_setdrivemode pin s ls command c] at h
      revert h; split
      · simp
      · split
        · simp
        · split <;> simp
    · rw [dispatch_info pin s ls command c] at h; simp at h
    · subst c; rw [dispatch_empty] at h; simp at h
    · rw [dispatch_unrecognized pin s ls command c.1 c.2] at h; simp at h
  · intro h
    rw [dispatch_quit pin s ls command h]

theorem dispatch_latch (pin : IGpioPin σ) (s : Session σ) (ls : wistringstream)
    (command : WString) (ht : ¬ (command = "t".toList ∨ command = "toggle".toList)) :
    (ShowPrompt.dispatch pin s ls command).1.outputLatch = s.outputLatch := by
  rcases command_cases command with c | c | c | c | c | c | c | c | c
  · rw [dispatch_quit pin s ls command c]
  · rw [dispatch_help pin s ls command c]; simp
  · rw [dispatch_write pin s ls command c]
    split
    · simp
    · split
      · rfl
      · split <;> simp
  · exact absurd c ht
  · rw [dispatch_read pin s ls command c]
    split <;> simp
  · rw [dispatch_setdrivemode pin s ls command c]
    split
    · simp
    · split
      · rfl
      · split <;> simp
  · rw [dispatch_info pin s ls command c]; simp
  · subst c; rw [dispatch_empty]
  · rw [dispatch_unrecognized pin s ls command c.1 c.2]; simp

theorem operator_not_ne (L : GpioPinValue) : operator_not L ≠ L := by
  by_cases h : L = GpioPinValue_Low
  · rw [h]; decide
  · rw [operator_not, if_neg h]; exact fun h1 => h h1.symm

theorem body_toggle (pin : IGpioPin σ) (s : Session σ) (line : WString)
    (hcmd : commandOf line = "t".toList ∨ commandOf line = "toggle".toList) :
    (ShowPrompt.body pin s line).1.outputLatch = operator_not s.outputLatch ∧
      (ShowPrompt.body pin s line).1.calls =
        s.calls ++ [PinCall.Write (operator_not s.outputLatch)] ∧
      (ShowPrompt.body pin s line).2 = true := by
  rw [body_eq_dispatch, dispatch_toggle pin s _ _ hcmd]
  split <;> simp

theorem body_toggle_pin (pin : IGpioPin σ) (s : Session σ) (line : WString)
    (hcmd : commandOf line = "t".toList ∨ commandOf line = "toggle".toList) :
    (ShowPrompt.body pin s line).1.pin = (pin.Write s.pin (operator_not s.outputLatch)).2 := by
  rw [body_eq_dispatch, dispatch_toggle pin s _ _ hcmd]
  split <;> rfl

theorem body_toggle_failed (pin : IGpioPin σ) (s : Session σ) (line : WString)
    (hcmd : commandOf line = "t".toList ∨ commandOf line = "toggle".toList)
    (hfail : FAILED (pin.Write s.pin (operator_not s.outputLatch)).1 = true) :
    (ShowPrompt.body pin s line).1.wcout =
      s.wcout ++ "Failed to write pin. hr = 0x".toList ++
        formatInteger true 32 (pin.Write s.pin (operator_not s.outputLatch)).1 ++ "\n".toList := by
  rw [body_eq_dispatch, dispatch_toggle pin s _ _ hcmd, if_pos hfail]

theorem body_toggle_succeeded (pin : IGpioPin σ) (s : Session σ) (line : WString)
    (hcmd : commandOf line = "t".toList ∨ commandOf line = "toggle".toList)
    (hok : FAILED (pin.Write s.pin (operator_not s.outputLatch)).1 = false) :
    (ShowPrompt.body pin s line).1.wcout = s.wcout := by
  rw [body_eq_dispatch, dispatch_toggle pin s _ _ hcmd, if_neg (by simp [hok])]

theorem body_write_argument (pin : IGpioPin σ) (s : Session σ) (line : WString)
    (hcmd : commandOf line = "w".toList ∨ commandOf line = "write".toList) :
    ShowPrompt.body pin s line =
      (match leadingPinValue (argumentOf line) with
        | none =>
          ((s.put "Syntax error: expecting 0 or 1\n".toList).put "Usage: write 0|1\n".toList, true)
        | some value =>
          if FAILED (Session.Write pin s value).1 then
            (((((Session.Write pin s value).2.put "Failed to write pin. hr = 0x".toList).setHex).putInteger
              32 (Session.Write pin s value).1).put "\n".toList, true)
          else ((Session.Write pin s value).2, true)) := by
  have hne : commandOf line ≠ [] := by
    rcases hcmd with h | h <;> rw [h] <;> decide
  have hx := pinValue_extract_argument (afterFirstToken line)
  rw [body_eq_dispatch, dispatch_write pin s _ _ hcmd, readCommand_fst line hne, hx.2, hx.1]
  unfold argumentOf
  cases leadingPinValue (firstToken (afterFirstToken line)) <;> simp

theorem good_eq (is : wistringstream) (hgood : is.good = true) (hne : is.buf ≠ []) :
    is = ⟨is.buf, is.buf.isEmpty, false⟩ := by
  obtain ⟨buf, e, f⟩ := is
  simp only [wistringstream.good, Bool.and_eq_true, Bool.not_eq_true'] at hgood
  cases buf with
  | nil => exact absurd rfl hne
  | cons c r => simp [hgood.1, hgood.2]

theorem firstToken_ne_nil (text : WString) (h : firstToken text ≠ []) : text ≠ [] := by
  rintro rfl
  exact h rfl

theorem equalUpToCase_length (a b : WString) (h : equalUpToCase a b = true) :
    a.length = b.length := by
  induction a generalizing b with
  | nil =>
    cases b with
    | nil => rfl
    | cons n ns => simp [equalUpToCase] at h
  | cons t ts ih =>
    cases b with
    | nil => simp [equalUpToCase] at h
    | cons n ns =>
      simp only [equalUpToCase, Bool.and_eq_true] at h
      simp [ih ns h.2]

/-! ## The claims -/

/-- C1, as stated, fails: with the latch at `High`, the line `toggle` and a pin whose write
fails with `E_FAIL`, the latch after the command is `Low`, not the value it had before. -/
theorem toggle_failed_write_latch_not_kept :
    commandOf "toggle".toList = "toggle".toList ∧
      FAILED ((constPin E_FAIL 0 0 GpioPinValue_High).Write () GpioPinValue_Low).1 = true ∧
      (Session.start ()).outputLatch = GpioPinValue_High ∧
      (ShowPrompt.body (constPin E_FAIL 0 0 GpioPinValue_High) (Session.start ())
        "toggle".toList).1.outputLatch = GpioPinValue_Low ∧
      (ShowPrompt.body (constPin E_FAIL 0 0 GpioPinValue_High) (Session.start ())
        "toggle".toList).1.outputLatch ≠ (Session.start ()).outputLatch := by
  decide

/-- C1, amended: when the command is `toggle` (or `t`) and the pin write it issues fails,
the latch after the command is the complement of the latch before it (`Low` from `High`,
`High` from `Low`), never the value before; the next toggle therefore attempts to write the
complement of that complement, which for a latch of `Low` or `High` is the value the latch had
before the failed toggle. The failure is reported. -/
theorem toggle_failed_write_complements_latch (pin : IGpioPin σ) (s : Session σ)
    (line next : WString)
    (hcmd : commandOf line = "t".toList ∨ commandOf line = "toggle".toList)
    (hnext : commandOf next = "t".toList ∨ commandOf next = "toggle".toList)
    (hfail : FAILED (pin.Write s.pin (operator_not s.outputLatch)).1 = true) :
    (ShowPrompt.body pin s line).1.outputLatch = operator_not s.outputLatch ∧
      (ShowPrompt.body pin s line).1.outputLatch ≠ s.outputLatch ∧
      (s.outputLatch = GpioPinValue_High →
        (ShowPrompt.body pin s line).1.outputLatch = GpioPinValue_Low) ∧
      (s.outputLatch = GpioPinValue_Low →
        (ShowPrompt.body pin s line).1.outputLatch = GpioPinValue_High) ∧
      (ShowPrompt.body pin (ShowPrompt.body pin s line).1 next).1.calls =
        s.calls ++ [PinCall.Write (operator_not s.outputLatch),
          PinCall.Write (operator_not (operator_not s.outputLatch))] ∧
      (s.outputLatch = GpioPinValue_Low ∨ s.outputLatch = GpioPinValue_High →
        operator_not (operator_not s.outputLatch) = s.outputLatch) ∧
      (ShowPrompt.body pin s line).1.wcout =
        s.wcout ++ "Failed to write pin. hr = 0x".toList ++
          formatInteger true 32 (pin.Write s.pin (operator_not s.outputLatch)).1 ++
          "\n".toList := by
  have h1 := body_toggle pin s line hcmd
  have h2 := body_toggle pin (ShowPrompt.body pin s line).1 next hnext
  refine ⟨h1.1, ?_, ?_, ?_, ?_, ?_, body_toggle_failed pin s line hcmd hfail⟩
  · rw [h1.1]; exact operator_not_ne _
  · intro h; rw [h1.1, h]; decide
  · intro h; rw [h1.1, h]; decide
  · rw [h2.2.1, h1.2.1, h1.1]; simp
  · rintro (h | h) <;> rw [h] <;> decide

/-- Concrete instance: two toggle lines on a pin whose writes fail with `E_FAIL`, starting
from the latch `High`; the latch becomes `Low` and the second toggle writes `High`. -/
theorem toggle_failed_write_complements_latch_witness :
    (ShowPrompt.body (constPin E_FAIL 0 0 GpioPinValue_High) (Session.start ())
        "toggle".toList).1.outputLatch = GpioPinValue_Low ∧
      (ShowPrompt.body (constPin E_FAIL 0 0 GpioPinValue_High)
        (ShowPrompt.body (constPin E_FAIL 0 0 GpioPinValue_High) (Session.start ())
          "toggle".toList).1 "t".toList).1.calls =
        [PinCall.Write GpioPinValue_Low, PinCall.Write GpioPinValue_High] :=
  have h := toggle_failed_write_complements_latch (constPin E_FAIL 0 0 GpioPinValue_High)
    (Session.start ()) "toggle".toList "t".toList (by decide) (by decide) (by decide)
  ⟨h.2.2.1 rfl, h.2.2.2.2.1⟩

/-- C2: when the command is `toggle` (or `t`) and the pin write succeeds, the pin is written
exactly once, with the complement of the latch (`High` for `Low`, `Low` for `High`): the
pin afterwards is the pin that `Write` of that value leaves, the call log gains that one
write, and the latch afterwards is that complement; nothing is printed. `ShowPrompt` on a
first line `toggle` writes `Low` to the pin and ends with the latch `Low`. -/
theorem toggle_writes_complement (pin : IGpioPin σ) (line : WString)
    (hcmd : commandOf line = "t".toList ∨ commandOf line = "toggle".toList) :
    (∀ s : Session σ, s.outputLatch = GpioPinValue_Low →
        FAILED (pin.Write s.pin GpioPinValue_High).1 = false →
        (ShowPrompt.body pin s line).1.calls = s.calls ++ [PinCall.Write GpioPinValue_High] ∧
          (ShowPrompt.body pin s line).1.pin = (pin.Write s.pin GpioPinValue_High).2 ∧
          (ShowPrompt.body pin s line).1.outputLatch = GpioPinValue_High ∧
          (ShowPrompt.body pin s line).1.wcout = s.wcout) ∧
      (∀ s : Session σ, s.outputLatch = GpioPinValue_High →
        FAILED (pin.Write s.pin GpioPinValue_Low).1 = false →
        (ShowPrompt.body pin s line).1.calls = s.calls ++ [PinCall.Write GpioPinValue_Low] ∧
          (ShowPrompt.body pin s line).1.pin = (pin.Write s.pin GpioPinValue_Low).2 ∧
          (ShowPrompt.body pin s line).1.outputLatch = GpioPinValue_Low ∧
          (ShowPrompt.body pin s line).1.wcout = s.wcout) ∧
      (∀ pin0 : σ, FAILED (pin.Write pin0 GpioPinValue_Low).1 = false →
        (ShowPrompt pin pin0 [line]).calls = [PinCall.Write GpioPinValue_Low] ∧
          (ShowPrompt pin pin0 [line]).pin = (pin.Write pin0 GpioPinValue_Low).2 ∧
          (ShowPrompt pin pin0 [line]).outputLatch = GpioPinValue_Low) := by
  refine ⟨?_, ?_, ?_⟩
  · intro s hL hok
    have h := body_toggle pin s line hcmd
    have hp := body_toggle_pin pin s line hcmd
    have hw := body_toggle_succeeded pin s line hcmd (by rw [hL]; exact hok)
    rw [h.1, h.2.1, hp, hL]
    exact ⟨rfl, rfl, rfl, hw⟩
  · intro s hL hok
    have h := body_toggle pin s line hcmd
    have hp := body_toggle_pin pin s line hcmd
    have hw := body_toggle_succeeded pin s line hcmd (by rw [hL]; exact hok)
    rw [h.1, h.2.1, hp, hL]
    exact ⟨rfl, rfl, rfl, hw⟩
  · intro pin0 _
    have h := body_toggle pin ((Session.start pin0).put "> ".toList) line hcmd
    have hp := body_toggle_pin pin ((Session.start pin0).put "> ".toList) line hcmd
    have hb : ShowPrompt.body pin ((Session.start pin0).put "> ".toList) line =
        ((ShowPrompt.body pin ((Session.start pin0).put "> ".toList) line).1, true) :=
      Prod.ext rfl h.2.2
    have hrun : ShowPrompt pin pin0 [line] =
        (ShowPrompt.body pin ((Session.start pin0).put "> ".toList) line).1.put "> ".toList := by
      unfold ShowPrompt
      rw [ShowPrompt.loop, hb]
      rfl
    rw [hrun]
    simp only [Session.put_calls, Session.put_outputLatch, Session.put_pin, h.1, h.2.1, hp]
    exact ⟨rfl, rfl, rfl⟩

/-- Concrete instance: the line `toggle` as the whole input, on the fake pin at `High`; the
pin ends at `Low`. -/
theorem toggle_writes_complement_witness :
    (ShowPrompt fakePin GpioPinValue_High ["toggle".toList]).calls =
        [PinCall.Write GpioPinValue_Low] ∧
      (ShowPrompt fakePin GpioPinValue_High ["toggle".toList]).pin = GpioPinValue_Low ∧
      (ShowPrompt fakePin GpioPinValue_High ["toggle".toList]).outputLatch =
        GpioPinValue_Low :=
  (toggle_writes_complement fakePin "toggle".toList (by decide)).2.2 GpioPinValue_High
    (by decide)

/-- C3, as stated, fails: the argument `1abc` of the line `write 1abc` is not an integer
token, yet the command writes `High` to the pin and prints no syntax error. -/
theorem write_accepts_digit_led_token :
    commandOf "write 1abc".toList = "write".toList ∧
      argumentOf "write 1abc".toList = "1abc".toList ∧
      isIntegerToken "1abc".toList = false ∧
      (ShowPrompt.body (constPin 0 0 0 GpioPinValue_High) (Session.start ())
        "write 1abc".toList).1.calls = [PinCall.Write GpioPinValue_High] ∧
      (ShowPrompt.body (constPin 0 0 0 GpioPinValue_High) (Session.start ())
        "write 1abc".toList).1.wcout = [] := by
  decide

/-- C3, amended: when the command is `write` (or `w`) and the argument does not begin with
an integer of value 0 or 1 (an optional sign, then decimal digits up to the first character
that is not a digit), which covers an integer of another value, a token that does not begin
with an integer and a missing token, no call is made on the pin, the syntax-error and usage
lines are printed, the pin and the latch are kept and the loop goes on. -/
theorem write_rejects_bad_argument (pin : IGpioPin σ) (s : Session σ) (line : WString)
    (hcmd : commandOf line = "w".toList ∨ commandOf line = "write".toList)
    (hbad : leadingPinValue (argumentOf line) = none) :
    (ShowPrompt.body pin s line).1.calls = s.calls ∧
      (ShowPrompt.body pin s line).1.pin = s.pin ∧
      (ShowPrompt.body pin s line).1.wcout =
        s.wcout ++ "Syntax error: expecting 0 or 1\n".toList ++ "Usage: write 0|1\n".toList ∧
      (ShowPrompt.body pin s line).1.outputLatch = s.outputLatch ∧
      (ShowPrompt.body pin s line).2 = true := by
  rw [body_write_argument pin s line hcmd, hbad]
  simp

/-- Concrete instance: the line `w 2` makes no call on the pin and the loop goes on. -/
theorem write_rejects_bad_argument_witness :
    (ShowPrompt.body (constPin 0 0 0 GpioPinValue_High) (Session.start ()) "w 2".toList).1.calls
        = [] ∧
      (ShowPrompt.body (constPin 0 0 0 GpioPinValue_High) (Session.start ()) "w 2".toList).2
        = true :=
  have h := write_rejects_bad_argument (constPin 0 0 0 GpioPinValue_High) (Session.start ())
    "w 2".toList (by decide) (by decide)
  ⟨h.1, h.2.2.2.2⟩

/-- C7: when the command is `write` (or `w`) and the argument parses to the pin value `v`
(it begins with an integer of value 0 for `Low`, of value 1 for `High`), the pin is
written exactly once, with `v`, and nothing else is done to it: the pin afterwards is the
pin that `Write` of `v` leaves and the call log gains that one write; the latch is kept
and the loop goes on. When that write succeeds nothing is printed. -/
theorem write_issues_one_write (pin : IGpioPin σ) (s : Session σ) (line : WString)
    (v : GpioPinValue)
    (hcmd : commandOf line = "w".toList ∨ commandOf line = "write".toList)
    (hv : leadingPinValue (argumentOf line) = some v) :
    (ShowPrompt.body pin s line).1.calls = s.calls ++ [PinCall.Write v] ∧
      (ShowPrompt.body pin s line).1.pin = (pin.Write s.pin v).2 ∧
      (ShowPrompt.body pin s line).1.outputLatch = s.outputLatch ∧
      (ShowPrompt.body pin s line).2 = true ∧
      (FAILED (pin.Write s.pin v).1 = false →
        (ShowPrompt.body pin s line).1.wcout = s.wcout ∧
          (ShowPrompt.body pin s line).2 = true) := by
  rw [body_write_argument pin s line hcmd, hv]
  by_cases hf : FAILED (pin.Write s.pin v).1 = true
  · simp [hf]
  · simp [hf]

/-- Concrete instance: the line `write 1` on the fake pin at `Low`; the pin ends at
`High`. -/
theorem write_issues_one_write_witness :
    (ShowPrompt.body fakePin (Session.start GpioPinValue_Low) "write 1".toList).1.calls =
        [PinCall.Write GpioPinValue_High] ∧
      (ShowPrompt.body fakePin (Session.start GpioPinValue_Low) "write 1".toList).1.pin =
        GpioPinValue_High ∧
      (ShowPrompt.body fakePin (Session.start GpioPinValue_Low) "write 1".toList).1.wcout =
        [] ∧
      (ShowPrompt.body fakePin (Session.start GpioPinValue_Low) "write 1".toList).2 = true :=
  have h := write_issues_one_write fakePin (Session.start GpioPinValue_Low)
    "write 1".toList GpioPinValue_High (by decide) (by decide)
  ⟨h.1, h.2.1, h.2.2.2.2 (by decide)⟩

/-- C4: on a good stream whose next token is `0` the pin-value parse succeeds with `Low`,
on one whose next token is `1` it succeeds with `High`, and the formatter prints the
parsed value as `Low` and `High` respectively; the formatter prints every value other than
`Low` and `High` as `[undefined]`. -/
theorem pinValue_parse_format (is : wistringstream) (hgood : is.good = true) :
    (firstToken is.buf = "0".toList →
        (GpioPinValue.operator_extract is).2 = some GpioPinValue_Low ∧
          (GpioPinValue.operator_extract is).1.fail = false ∧
          (GpioPinValue.operator_extract is).2.map GpioPinValue.operator_insert =
            some "Low".toList) ∧
      (firstToken is.buf = "1".toList →
        (GpioPinValue.operator_extract is).2 = some GpioPinValue_High ∧
          (GpioPinValue.operator_extract is).1.fail = false ∧
          (GpioPinValue.operator_extract is).2.map GpioPinValue.operator_insert =
            some "High".toList) ∧
      (∀ value : GpioPinValue, value ≠ GpioPinValue_Low → value ≠ GpioPinValue_High →
        GpioPinValue.operator_insert value = "[undefined]".toList) := by
  refine ⟨?_, ?_, ?_⟩
  · intro h
    have hne : is.buf ≠ [] := firstToken_ne_nil _ (by rw [h]; decide)
    have hx := pinValue_extract_argument is.buf
    rw [← good_eq is hgood hne, h] at hx
    have hv : (GpioPinValue.operator_extract is).2 = some GpioPinValue_Low := by
      rw [hx.1]; decide
    rw [hx.2, hv]
    exact ⟨rfl, rfl, rfl⟩
  · intro h
    have hne : is.buf ≠ [] := firstToken_ne_nil _ (by rw [h]; decide)
    have hx := pinValue_extract_argument is.buf
    rw [← good_eq is hgood hne, h] at hx
    have hv : (GpioPinValue.operator_extract is).2 = some GpioPinValue_High := by
      rw [hx.1]; decide
    rw [hx.2, hv]
    exact ⟨rfl, rfl, rfl⟩
  · intro value h0 h1
    rw [GpioPinValue.operator_insert, if_neg h0, if_neg h1]

/-- Concrete instance: the text ` 1` parses to `High`, and the value 7 is printed as
`[undefined]`. -/
theorem pinValue_parse_format_witness :
    (GpioPinValue.operator_extract (wistringstream.ofLine " 1".toList)).2 =
        some GpioPinValue_High ∧
      GpioPinValue.operator_insert 7 = "[undefined]".toList :=
  have h := pinValue_parse_format (wistringstream.ofLine " 1".toList) (by decide)
  ⟨(h.2.1 (by decide)).1, h.2.2 7 (by decide) (by decide)⟩

/-- C5, as stated, fails: the token `input`, NUL, `x` is not equal to any of the four names
up to letter case, yet the drive-mode parse succeeds on it and yields `Input`. -/
theorem driveMode_parse_stops_at_nul :
    firstToken "input\x00x".toList = "input\x00x".toList ∧
      driveModeNamed "input\x00x".toList = none ∧
      (GpioPinDriveMode.operator_extract (wistringstream.ofLine "input\x00x".toList)).2 =
        some GpioPinDriveMode_Input ∧
      (GpioPinDriveMode.operator_extract (wistringstream.ofLine "input\x00x".toList)).1.fail =
        false := by
  decide

/-- C5, amended: the drive-mode parse compares the next token up to its first NUL character
(the whole token when it has none). When that part equals `input`, `output`, `inputPullUp`
or `inputPullDown` up to the letter case of each character, the parse succeeds and yields
`Input`, `Output`, `InputPullUp`, `InputPullDown` respectively; for every other token, and
for a missing token, the parse fails. -/
theorem driveMode_parse (is : wistringstream) :
    (equalUpToCase (c_str (firstToken is.buf)) "input".toList = true →
        (GpioPinDriveMode.operator_extract is).2 = some GpioPinDriveMode_Input ∧
          (GpioPinDriveMode.operator_extract is).1.fail = false) ∧
      (equalUpToCase (c_str (firstToken is.buf)) "output".toList = true →
        (GpioPinDriveMode.operator_extract is).2 = some GpioPinDriveMode_Output ∧
          (GpioPinDriveMode.operator_extract is).1.fail = false) ∧
      (equalUpToCase (c_str (firstToken is.buf)) "inputPullUp".toList = true →
        (GpioPinDriveMode.operator_extract is).2 = some GpioPinDriveMode_InputPullUp ∧
          (GpioPinDriveMode.operator_extract is).1.fail = false) ∧
      (equalUpToCase (c_str (firstToken is.buf)) "inputPullDown".toList = true →
        (GpioPinDriveMode.operator_extract is).2 = some GpioPinDriveMode_InputPullDown ∧
          (GpioPinDriveMode.operator_extract is).1.fail = false) ∧
      (equalUpToCase (c_str (firstToken is.buf)) "input".toList = false →
        equalUpToCase (c_str (firstToken is.buf)) "output".toList = false →
        equalUpToCase (c_str (firstToken is.buf)) "inputPullUp".toList = false →
        equalUpToCase (c_str (firstToken is.buf)) "inputPullDown".toList = false →
        (GpioPinDriveMode.operator_extract is).2 = none ∧
          (GpioPinDriveMode.operator_extract is).1.fail = true) ∧
      (firstToken is.buf = [] →
        (GpioPinDriveMode.operator_extract is).2 = none ∧
          (GpioPinDriveMode.operator_extract is).1.fail = true) := by
  have hx := driveMode_extract_value is
  rw [hx.2, hx.1]
  have hneg : ∀ a b : WString, equalUpToCase (c_str (firstToken is.buf)) a = true →
      a.length ≠ b.length → ¬ equalUpToCase (c_str (firstToken is.buf)) b = true := by
    intro a b ha hab hb
    exact hab ((equalUpToCase_length _ _ ha).symm.trans (equalUpToCase_length _ _ hb))
  unfold driveModeNamed
  refine ⟨?_, ?_, ?_, ?_, ?_, ?_⟩
  · intro h
    rw [if_pos h]
    exact ⟨rfl, rfl⟩
  · intro h
    rw [if_neg (hneg _ _ h (by decide)), if_pos h]
    exact ⟨rfl, rfl⟩
  · intro h
    rw [if_neg (hneg _ _ h (by decide)), if_neg (hneg _ _ h (by decide)), if_pos h]
    exact ⟨rfl, rfl⟩
  · intro h
    rw [if_neg (hneg _ _ h (by decide)), if_neg (hneg _ _ h (by decide)),
      if_neg (hneg _ _ h (by decide)), if_pos h]
    exact ⟨rfl, rfl⟩
  · intro h1 h2 h3 h4
    rw [if_neg (Bool.eq_false_iff.1 h1), if_neg (Bool.eq_false_iff.1 h2),
      if_neg (Bool.eq_false_iff.1 h3), if_neg (Bool.eq_false_iff.1 h4)]
    exact ⟨rfl, rfl⟩
  · intro h
    rw [h]
    decide

/-- Concrete instance: the token `INPUTpullup` yields `InputPullUp`. -/
theorem driveMode_parse_witness :
    (GpioPinDriveMode.operator_extract (wistringstream.ofLine " INPUTpullup".toList)).2 =
        some GpioPinDriveMode_InputPullUp ∧
      (GpioPinDriveMode.operator_extract (wistringstream.ofLine " INPUTpullup".toList)).1.fail =
        false :=
  (driveMode_parse (wistringstream.ofLine " INPUTpullup".toList)).2.2.1 (by decide)

/-- C6, as stated, fails: the argument `input`, NUL, `x` of a `setdrivemode` line is none of
the four drive-mode names in any letter case, yet the command prints no syntax error and
calls `SetDriveMode` with `Input`: on a pin that remembers its drive mode the mode goes
from `InputPullDown` to `Input`. -/
theorem setdrivemode_accepts_name_before_nul :
    commandOf "setdrivemode input\x00x".toList = "setdrivemode".toList ∧
      argumentOf "setdrivemode input\x00x".toList = "input\x00x".toList ∧
      driveModeNamed (argumentOf "setdrivemode input\x00x".toList) = none ∧
      (ShowPrompt.body modePin (Session.start GpioPinDriveMode_InputPullDown)
        "setdrivemode input\x00x".toList).1.calls =
        [PinCall.SetDriveMode GpioPinDriveMode_Input] ∧
      (ShowPrompt.body modePin (Session.start GpioPinDriveMode_InputPullDown)
        "setdrivemode input\x00x".toList).1.pin = GpioPinDriveMode_Input ∧
      (ShowPrompt.body modePin (Session.start GpioPinDriveMode_InputPullDown)
        "setdrivemode input\x00x".toList).1.wcout = [] := by
  decide

/-- C6, amended: when the command is `setdrivemode` and the argument, read up to its first
NUL character (the whole argument when it has none), is none of the four drive-mode names
in any letter case (a missing argument is such a case), the syntax-error message is
printed, no call is made on the pin, the pin and the latch are unchanged and the loop goes
on. -/
theorem setdrivemode_rejects_bad_argument (pin : IGpioPin σ) (s : Session σ) (line : WString)
    (hcmd : commandOf line = "setdrivemode".toList)
    (hbad : driveModeNamed (c_str (argumentOf line)) = none) :
    (ShowPrompt.body pin s line).1.wcout =
        s.wcout ++ "Syntax error: expecting valid drive mode\n".toList ∧
      (ShowPrompt.body pin s line).1.calls = s.calls ∧
      (ShowPrompt.body pin s line).1.pin = s.pin ∧
      (ShowPrompt.body pin s line).1.outputLatch = s.outputLatch ∧
      (ShowPrompt.body pin s line).2 = true := by
  have hne : commandOf line ≠ [] := by rw [hcmd]; decide
  have hx := driveMode_extract_value ⟨afterFirstToken line, (afterFirstToken line).isEmpty, false⟩
  have hv : (GpioPinDriveMode.operator_extract
      ⟨afterFirstToken line, (afterFirstToken line).isEmpty, false⟩).2 = none := by
    rw [hx.1]; exact hbad
  have hf : (GpioPinDriveMode.operator_extract
      ⟨afterFirstToken line, (afterFirstToken line).isEmpty, false⟩).1.fail = true := by
    rw [hx.2, hv]; rfl
  rw [body_eq_dispatch, dispatch_setdrivemode pin s _ _ hcmd, readCommand_fst line hne,
    if_pos hf]
  simp

/-- Concrete instance: the line `setdrivemode bogus` prints the syntax error, makes no
call on the pin and leaves its drive mode at `InputPullUp`; so does `setdrivemode` with no
argument. -/
theorem setdrivemode_rejects_bad_argument_witness :
    (ShowPrompt.body modePin (Session.start GpioPinDriveMode_InputPullUp)
        "setdrivemode bogus".toList).1.wcout =
        "Syntax error: expecting valid drive mode\n".toList ∧
      (ShowPrompt.body modePin (Session.start GpioPinDriveMode_InputPullUp)
        "setdrivemode bogus".toList).1.calls = [] ∧
      (ShowPrompt.body modePin (Session.start GpioPinDriveMode_InputPullUp)
        "setdrivemode bogus".toList).1.pin = GpioPinDriveMode_InputPullUp ∧
      (ShowPrompt.body modePin (Session.start GpioPinDriveMode_InputPullUp)
        "setdrivemode".toList).1.calls = [] :=
  have h := setdrivemode_rejects_bad_argument modePin
    (Session.start GpioPinDriveMode_InputPullUp) "setdrivemode bogus".toList (by decide)
    (by decide)
  have h2 := setdrivemode_rejects_bad_argument modePin
    (Session.start GpioPinDriveMode_InputPullUp) "setdrivemode".toList (by decide)
    (by decide)
  ⟨h.1, h.2.1, h.2.2.1, h2.2.1⟩

/-- C8: for every line whose command is not `toggle` or `t`, every latch value and every
behaviour of the pin, the latch after the command equals the latch before it. -/
theorem latch_changed_only_by_toggle (pin : IGpioPin σ) (s : Session σ) (line : WString)
    (h : ¬ (commandOf line = "t".toList ∨ commandOf line = "toggle".toList)) :
    (ShowPrompt.body pin s line).1.outputLatch = s.outputLatch := by
  rw [body_eq_dispatch]
  exact dispatch_latch pin s _ _ h

/-- Concrete instance: a successful `write 0` writes `Low` and leaves the latch at
`High`. -/
theorem latch_changed_only_by_toggle_witness :
    (ShowPrompt.body (constPin 0 0 0 GpioPinValue_High) (Session.start ())
        "write 0".toList).1.calls = [PinCall.Write GpioPinValue_Low] ∧
      (ShowPrompt.body (constPin 0 0 0 GpioPinValue_High) (Session.start ())
        "write 0".toList).1.outputLatch = GpioPinValue_High :=
  ⟨by decide, latch_changed_only_by_toggle (constPin 0 0 0 GpioPinValue_High)
    (Session.start ()) "write 0".toList (by decide)⟩

/-- C9: the loop body returns on a line exactly when the first token of the line is `quit`
or `q`, whatever the pin does; on every other line the loop goes on to the next line.
The loop also ends when the input is exhausted. When `quit` (or `q`) is the first line,
`ShowPrompt` makes no call on the pin and processes no later line: it ends in the start
session with only the prompt printed. -/
theorem session_ends_only_on_quit (pin : IGpioPin σ) (s : Session σ) (pin0 : σ)
    (line : WString) (rest : List WString) :
    ((ShowPrompt.body pin s line).2 = false ↔
        (commandOf line = "q".toList ∨ commandOf line = "quit".toList)) ∧
      (¬ (commandOf line = "q".toList ∨ commandOf line = "quit".toList) →
        ShowPrompt.loop pin s (line :: rest) =
          ShowPrompt.loop pin (ShowPrompt.body pin (s.put "> ".toList) line).1 rest) ∧
      ShowPrompt.loop pin s [] = s.put "> ".toList ∧
      ((commandOf line = "q".toList ∨ commandOf line = "quit".toList) →
        ShowPrompt.loop pin s (line :: rest) = s.put "> ".toList ∧
          (ShowPrompt pin pin0 (line :: rest)).calls = [] ∧
          ShowPrompt pin pin0 (line :: rest) = (Session.start pin0).put "> ".toList) := by
  have hiff : ∀ s1 : Session σ, (ShowPrompt.body pin s1 line).2 = false ↔
      (commandOf line = "q".toList ∨ commandOf line = "quit".toList) := by
    intro s1
    rw [body_eq_dispatch]
    exact dispatch_running_iff pin s1 _ _
  have hquit : ∀ s1 : Session σ,
      (commandOf line = "q".toList ∨ commandOf line = "quit".toList) →
      ShowPrompt.loop pin s1 (line :: rest) = s1.put "> ".toList := by
    intro s1 hq
    have hb : ShowPrompt.body pin (s1.put "> ".toList) line = (s1.put "> ".toList, false) := by
      rw [body_eq_dispatch, dispatch_quit pin _ _ _ hq]
    rw [ShowPrompt.loop, hb]
  refine ⟨hiff s, ?_, rfl, ?_⟩
  · intro hq
    have h2 : (ShowPrompt.body pin (s.put "> ".toList) line).2 = true := by
      cases hb : (ShowPrompt.body pin (s.put "> ".toList) line).2
      · exact absurd ((hiff _).1 hb) hq
      · rfl
    have hb : ShowPrompt.body pin (s.put "> ".toList) line =
        ((ShowPrompt.body pin (s.put "> ".toList) line).1, true) := Prod.ext rfl h2
    rw [ShowPrompt.loop, hb]
  · intro hq
    refine ⟨hquit s hq, ?_, ?_⟩
    · unfold ShowPrompt
      rw [hquit _ hq]
      rfl
    · unfold ShowPrompt
      exact hquit _ hq

/-- Concrete instance: with `quit` as the first line the later `read` is not processed,
and after `read` the loop goes on. -/
theorem session_ends_only_on_quit_witness :
    (ShowPrompt (constPin 0 0 0 GpioPinValue_High) () ["quit".toList, "read".toList]).calls
        = [] ∧
      ShowPrompt.loop (constPin 0 0 0 GpioPinValue_High) (Session.start ())
          ["read".toList, "q".toList] =
        ShowPrompt.loop (constPin 0 0 0 GpioPinValue_High)
          (ShowPrompt.body (constPin 0 0 0 GpioPinValue_High)
            ((Session.start ()).put "> ".toList) "read".toList).1 ["q".toList] :=
  ⟨((session_ends_only_on_quit (constPin 0 0 0 GpioPinValue_High) (Session.start ()) ()
      "quit".toList ["read".toList]).2.2.2 (by decide)).2.1,
    (session_ends_only_on_quit (constPin 0 0 0 GpioPinValue_High) (Session.start ()) ()
      "read".toList ["q".toList]).2.1 (by decide)⟩

/-- C10: for every line whose first token is not empty and is none of the command names,
exactly one diagnostic is printed, `Unrecognized command: ` followed by the token and by
the hint to type `help`; no call is made on the pin, the pin and the latch are unchanged
and the loop goes on. -/
theorem unrecognized_command_reported (pin : IGpioPin σ) (s : Session σ) (line : WString)
    (hne : commandOf line ≠ []) (hun : commandOf line ∉ commandNames) :
    (ShowPrompt.body pin s line).1.wcout =
        s.wcout ++ "Unrecognized command: ".toList ++ commandOf line ++
          ". Type 'help' for command usage.\n".toList ∧
      (ShowPrompt.body pin s line).1.calls = s.calls ∧
      (ShowPrompt.body pin s line).1.pin = s.pin ∧
      (ShowPrompt.body pin s line).1.outputLatch = s.outputLatch ∧
      (ShowPrompt.body pin s line).2 = true := by
  rw [body_eq_dispatch, dispatch_unrecognized pin s _ _ hne hun]
  simp

/-- Concrete instance: the line `Quit now` is reported as the unrecognized command
`Quit`. -/
theorem unrecognized_command_reported_witness :
    (ShowPrompt.body (constPin 0 0 0 GpioPinValue_High) (Session.start ())
        "Quit now".toList).1.wcout =
        "Unrecognized command: Quit. Type 'help' for command usage.\n".toList ∧
      (ShowPrompt.body (constPin 0 0 0 GpioPinValue_High) (Session.start ())
        "Quit now".toList).2 = true :=
  have h := unrecognized_command_reported (constPin 0 0 0 GpioPinValue_High)
    (Session.start ()) "Quit now".toList (by decide) (by decide)
  ⟨h.1, h.2.2.2.2⟩

theorem digitChar_ne_newline (k : Nat) : Nat.digitChar k ≠ '\n' := by
  by_cases hk : k < 16
  · interval_cases k <;> decide
  · unfold Nat.digitChar
    have far : ∀ j : Nat, j < 16 → ¬ k = j := fun j hj hkj => hk (hkj ▸ hj)
    simp only [far 0 (by decide), far 1 (by decide), far 2 (by decide), far 3 (by decide),
      far 4 (by decide), far 5 (by decide), far 6 (by decide), far 7 (by decide),
      far 8 (by decide), far 9 (by decide), far 10 (by decide), far 11 (by decide),
      far 12 (by decide), far 13 (by decide), far 14 (by decide), far 15 (by decide),
      if_false]
    decide

theorem toDigitsCore_no_newline (b : Nat) (fuel n : Nat) (acc : List Char)
    (hacc : '\n' ∉ acc) : '\n' ∉ Nat.toDigitsCore b fuel n acc := by
  induction fuel generalizing n acc with
  | zero => simpa [Nat.toDigitsCore] using hacc
  | succ f ih =>
    have hcons : '\n' ∉ Nat.digitChar (n % b) :: acc := by
      intro h
      rcases List.mem_cons.1 h with h1 | h1
      · exact digitChar_ne_newline _ h1.symm
      · exact hacc h1
    unfold Nat.toDigitsCore
    simp only []
    split
    · exact hcons
    · exact ih _ _ hcons

theorem formatInteger_no_newline (hex : Bool) (width : Nat) (v : Int) :
    '\n' ∉ formatInteger hex width v := by
  unfold formatInteger Nat.toDigits
  split
  · exact toDigitsCore_no_newline _ _ _ _ (by simp)
  · split
    · intro h
      rcases List.mem_cons.1 h with h1 | h1
      · exact absurd h1 (by decide)
      · exact toDigitsCore_no_newline _ _ _ _ (by simp) h1
    · exact toDigitsCore_no_newline _ _ _ _ (by simp)

@[simp] theorem Session.get_PinNumber_fst (pin : IGpioPin σ) (s : Session σ) :
    (Session.get_PinNumber pin s).1 = (pin.get_PinNumber s.pin).1 := rfl

@[simp] theorem Session.get_PinNumber_calls (pin : IGpioPin σ) (s : Session σ) :
    (Session.get_PinNumber pin s).2.calls = s.calls ++ [PinCall.get_PinNumber] := rfl

@[simp] theorem Session.get_PinNumber_pin (pin : IGpioPin σ) (s : Session σ) :
    (Session.get_PinNumber pin s).2.pin = (pin.get_PinNumber s.pin).2 := rfl

@[simp] theorem Session.get_PinNumber_wcout (pin : IGpioPin σ) (s : Session σ) :
    (Session.get_PinNumber pin s).2.wcout = s.wcout := rfl

@[simp] theorem Session.get_SharingMode_fst (pin : IGpioPin σ) (s : Session σ) :
    (Session.get_SharingMode pin s).1 = (pin.get_SharingMode s.pin).1 := rfl

@[simp] theorem Session.get_SharingMode_calls (pin : IGpioPin σ) (s : Session σ) :
    (Session.get_SharingMode pin s).2.calls = s.calls ++ [PinCall.get_SharingMode] := rfl

@[simp] theorem Session.get_SharingMode_pin (pin : IGpioPin σ) (s : Session σ) :
    (Session.get_SharingMode pin s).2.pin = (pin.get_SharingMode s.pin).2 := rfl

@[simp] theorem Session.get_SharingMode_wcout (pin : IGpioPin σ) (s : Session σ) :
    (Session.get_SharingMode pin s).2.wcout = s.wcout := rfl

@[simp] theorem Session.get_DebounceTimeout_fst (pin : IGpioPin σ) (s : Session σ) :
    (Session.get_DebounceTimeout pin s).1 = (pin.get_DebounceTimeout s.pin).1 := rfl

@[simp] theorem Session.get_DebounceTimeout_calls (pin : IGpioPin σ) (s : Session σ) :
    (Session.get_DebounceTimeout pin s).2.calls = s.calls ++ [PinCall.get_DebounceTimeout] := rfl

@[simp] theorem Session.get_DebounceTimeout_pin (pin : IGpioPin σ) (s : Session σ) :
    (Session.get_DebounceTimeout pin s).2.pin = (pin.get_DebounceTimeout s.pin).2 := rfl

@[simp] theorem Session.get_DebounceTimeout_wcout (pin : IGpioPin σ) (s : Session σ) :
    (Session.get_DebounceTimeout pin s).2.wcout = s.wcout := rfl

@[simp] theorem Session.GetDriveMode_fst (pin : IGpioPin σ) (s : Session σ) :
    (Session.GetDriveMode pin s).1 = (pin.GetDriveMode s.pin).1 := rfl

@[simp] theorem Session.GetDriveMode_calls (pin : IGpioPin σ) (s : Session σ) :
    (Session.GetDriveMode pin s).2.calls = s.calls ++ [PinCall.GetDriveMode] := rfl

@[simp] theorem Session.GetDriveMode_pin (pin : IGpioPin σ) (s : Session σ) :
    (Session.GetDriveMode pin s).2.pin = (pin.GetDriveMode s.pin).2 := rfl

@[simp] theorem Session.GetDriveMode_wcout (pin : IGpioPin σ) (s : Session σ) :
    (Session.GetDriveMode pin s).2.wcout = s.wcout := rfl

theorem formatInteger_hex (v : Int) : formatInteger true 32 v = hexText v := rfl

theorem formatInteger_dec (width : Nat) (v : Int) : formatInteger false width v = decimalText v :=
  rfl

theorem firstToken_of_blank (line : WString) (h : ∀ c ∈ line, iswspace c = true) :
    firstToken line = [] := by
  have : line.dropWhile iswspace = [] := List.dropWhile_eq_nil_iff.2 h
  simp [firstToken, this]

theorem body_read (pin : IGpioPin σ) (s : Session σ) (line : WString)
    (hcmd : commandOf line = "r".toList ∨ commandOf line = "read".toList) :
    (ShowPrompt.body pin s line).1.wcout = s.wcout ++ readOutput (pin.Read s.pin).1 ∧
      (ShowPrompt.body pin s line).1.calls = s.calls ++ [PinCall.Read] ∧
      (ShowPrompt.body pin s line).1.pin = (pin.Read s.pin).2 ∧
      (ShowPrompt.body pin s line).1.outputLatch = s.outputLatch ∧
      (ShowPrompt.body pin s line).2 = true := by
  rw [body_eq_dispatch, dispatch_read pin s _ _ hcmd]
  by_cases hf : FAILED (pin.Read s.pin).1.1 = true
  · simp [hf, readOutput, failureLine, formatInteger_hex]
  · simp [hf, readOutput]

theorem body_setdrivemode_argument (pin : IGpioPin σ) (s : Session σ) (line : WString)
    (hcmd : commandOf line = "setdrivemode".toList) :
    ShowPrompt.body pin s line =
      (match driveModeNamed (c_str (argumentOf line)) with
        | none => (s.put "Syntax error: expecting valid drive mode\n".toList, true)
        | some driveMode =>
          if FAILED (Session.SetDriveMode pin s driveMode).1 then
            (((((Session.SetDriveMode pin s driveMode).2.put
              "Failed to set drive mode. hr = 0x".toList).setHex).putInteger
              32 (Session.SetDriveMode pin s driveMode).1).put "\n".toList, true)
          else ((Session.SetDriveMode pin s driveMode).2, true)) := by
  have hne : commandOf line ≠ [] := by rw [hcmd]; decide
  have hx := driveMode_extract_value ⟨afterFirstToken line, (afterFirstToken line).isEmpty, false⟩
  rw [body_eq_dispatch, dispatch_setdrivemode pin s _ _ hcmd, readCommand_fst line hne,
    hx.2, hx.1]
  unfold argumentOf
  cases driveModeNamed (c_str (firstToken (afterFirstToken line))) <;> simp

theorem failureLine_single (what : WString) (code : HRESULT) (hwhat : '\n' ∉ what) :
    isSingleLine (failureLine what code) = true := by
  have hhex : '\n' ∉ hexText code := formatInteger_no_newline true 32 code
  unfold isSingleLine failureLine
  simp only [Bool.and_eq_true, beq_iff_eq, List.count_append]
  refine ⟨?_, ?_⟩
  · show (_ ++ ['\n']).getLast? = some '\n'
    exact List.getLast?_concat _
  · rw [List.count_eq_zero_of_not_mem hwhat, List.count_eq_zero_of_not_mem hhex]
    decide

/-- C11: for every line that contains no token (the empty line, and any line made only of
white space) the loop body prints nothing, makes no call on the pin, leaves the session,
the latch included, as it was, and the loop goes on. -/
theorem blank_line_ignored (pin : IGpioPin σ) (s : Session σ) (line : WString)
    (hblank : ∀ c ∈ line, iswspace c = true) :
    commandOf line = [] ∧
      ShowPrompt.body pin s line = (s, true) ∧
      (ShowPrompt.body pin s line).1.wcout = s.wcout ∧
      (ShowPrompt.body pin s line).1.calls = s.calls ∧
      (ShowPrompt.body pin s line).1.outputLatch = s.outputLatch ∧
      (ShowPrompt.body pin s line).2 = true := by
  have hc : commandOf line = [] := firstToken_of_blank line hblank
  have hb : ShowPrompt.body pin s line = (s, true) := by
    rw [body_eq_dispatch, hc, dispatch_empty]
  rw [hb]
  exact ⟨hc, rfl, rfl, rfl, rfl, rfl⟩

/-- Concrete instance: a line of two blanks and a tab, and the empty line. -/
theorem blank_line_ignored_witness :
    ShowPrompt.body (constPin 0 0 0 GpioPinValue_High) (Session.start ()) "  \t".toList =
        (Session.start (), true) ∧
      ShowPrompt.body (constPin 0 0 0 GpioPinValue_High) (Session.start ()) [] =
        (Session.start (), true) :=
  ⟨(blank_line_ignored (constPin 0 0 0 GpioPinValue_High) (Session.start ()) "  \t".toList
      (by decide)).2.1,
    (blank_line_ignored (constPin 0 0 0 GpioPinValue_High) (Session.start ()) []
      (by simp)).2.1⟩

/-- C12: when the pin operation issued by `write`, `toggle`, `read` or `setdrivemode`
returns a failure code, the command prints exactly one line and nothing else: `Failed to`,
the operation (`write pin`, `write pin`, `read pin`, `set drive mode`), `. hr = 0x` and the
code in hexadecimal; the loop goes on. -/
theorem failed_operation_reported (pin : IGpioPin σ) (s : Session σ) (line : WString) :
    (∀ v : GpioPinValue, commandOf line = "w".toList ∨ commandOf line = "write".toList →
        leadingPinValue (argumentOf line) = some v →
        FAILED (pin.Write s.pin v).1 = true →
        (ShowPrompt.body pin s line).1.wcout =
            s.wcout ++ failureLine "write pin".toList (pin.Write s.pin v).1 ∧
          (ShowPrompt.body pin s line).2 = true) ∧
      (commandOf line = "t".toList ∨ commandOf line = "toggle".toList →
        FAILED (pin.Write s.pin (operator_not s.outputLatch)).1 = true →
        (ShowPrompt.body pin s line).1.wcout =
            s.wcout ++
              failureLine "write pin".toList (pin.Write s.pin (operator_not s.outputLatch)).1 ∧
          (ShowPrompt.body pin s line).2 = true) ∧
      (commandOf line = "r".toList ∨ commandOf line = "read".toList →
        FAILED (pin.Read s.pin).1.1 = true →
        (ShowPrompt.body pin s line).1.wcout =
            s.wcout ++ failureLine "read pin".toList (pin.Read s.pin).1.1 ∧
          (ShowPrompt.body pin s line).2 = true) ∧
      (∀ m : GpioPinDriveMode, commandOf line = "setdrivemode".toList →
        driveModeNamed (c_str (argumentOf line)) = some m →
        FAILED (pin.SetDriveMode s.pin m).1 = true →
        (ShowPrompt.body pin s line).1.wcout =
            s.wcout ++ failureLine "set drive mode".toList (pin.SetDriveMode s.pin m).1 ∧
          (ShowPrompt.body pin s line).2 = true) ∧
      (∀ code : HRESULT, isSingleLine (failureLine "write pin".toList code) = true ∧
        isSingleLine (failureLine "read pin".toList code) = true ∧
        isSingleLine (failureLine "set drive mode".toList code) = true) := by
  refine ⟨?_, ?_, ?_, ?_, ?_⟩
  · intro v hcmd hv hf
    rw [body_write_argument pin s line hcmd, hv]
    simp [hf, failureLine, formatInteger_hex]
  · intro hcmd hf
    rw [body_eq_dispatch, dispatch_toggle pin s _ _ hcmd, if_pos hf]
    simp [failureLine, formatInteger_hex]
  · intro hcmd hf
    have h := body_read pin s line hcmd
    rw [h.1, h.2.2.2.2, readOutput, if_pos hf]
    exact ⟨rfl, rfl⟩
  · intro m hcmd hm hf
    rw [body_setdrivemode_argument pin s line hcmd, hm]
    simp [hf, failureLine, formatInteger_hex]
  · intro code
    exact ⟨failureLine_single _ code (by decide), failureLine_single _ code (by decide),
      failureLine_single _ code (by decide)⟩

/-- Concrete instance: on a pin whose operations fail, `write 1` reports `E_FAIL` as
`80004005` and `read` reports the code -1 as `ffffffff`. -/
theorem failed_operation_reported_witness :
    (ShowPrompt.body (constPin E_FAIL (-1) (-2) GpioPinValue_High) (Session.start ())
        "write 1".toList).1.wcout = "Failed to write pin. hr = 0x80004005\n".toList ∧
      (ShowPrompt.body (constPin E_FAIL (-1) (-2) GpioPinValue_High) (Session.start ())
        "read".toList).1.wcout = "Failed to read pin. hr = 0xffffffff\n".toList :=
  have h := failed_operation_reported (constPin E_FAIL (-1) (-2) GpioPinValue_High)
    (Session.start ()) "write 1".toList
  have h2 := failed_operation_reported (constPin E_FAIL (-1) (-2) GpioPinValue_High)
    (Session.start ()) "read".toList
  ⟨(h.1 GpioPinValue_High (by decide) (by decide) (by decide)).1,
    (h2.2.2.1 (by decide) (by decide)).1⟩

theorem dropWhile_append_of_all {α : Type} (p : α → Bool) (l1 l2 : List α)
    (h : ∀ x ∈ l1, p x = true) : (l1 ++ l2).dropWhile p = l2.dropWhile p := by
  induction l1 with
  | nil => rfl
  | cons a t ih =>
    have ha := h a (List.mem_cons_self _ _)
    simp only [List.cons_append, List.dropWhile_cons, ha, if_true]
    exact ih (fun x hx => h x (List.mem_cons_of_mem _ hx))

theorem takeWhile_append_of_all {α : Type} (p : α → Bool) (l1 l2 : List α)
    (h : ∀ x ∈ l1, p x = true) : (l1 ++ l2).takeWhile p = l1 ++ l2.takeWhile p := by
  induction l1 with
  | nil => rfl
  | cons a t ih =>
    have ha := h a (List.mem_cons_self _ _)
    simp only [List.cons_append, List.takeWhile_cons, ha, if_true]
    rw [ih (fun x hx => h x (List.mem_cons_of_mem _ hx))]

theorem dropWhile_dropWhile {α : Type} (p : α → Bool) (l : List α) :
    (l.dropWhile p).dropWhile p = l.dropWhile p := by
  cases h : l.dropWhile p with
  | nil => rfl
  | cons c r =>
    have hc := dropWhile_head_not p l c r h
    simp [List.dropWhile_cons, hc]

theorem takeWhile_dropWhile {α : Type} (p : α → Bool) (l : List α) :
    (l.dropWhile p).takeWhile p = [] := by
  cases h : l.dropWhile p with
  | nil => rfl
  | cons c r =>
    have hc := dropWhile_head_not p l c r h
    simp [List.takeWhile_cons, hc]

theorem replaceCommand_tokens (line name : WString) (hne : name ≠ [])
    (hname : ∀ c ∈ name, iswspace c = false) :
    commandOf (replaceCommand line name) = name ∧
      afterFirstToken (replaceCommand line name) = afterFirstToken line := by
  have hnw : ∀ c ∈ name, (fun c => !iswspace c) c = true := by
    intro c hc
    simp [hname c hc]
  have hdrop : (replaceCommand line name).dropWhile iswspace = name ++ afterFirstToken line := by
    unfold replaceCommand
    rw [List.append_assoc, dropWhile_append_of_all _ _ _ (fun x hx => List.mem_takeWhile_imp hx)]
    cases name with
    | nil => exact absurd rfl hne
    | cons a t =>
      have ha := hname a (List.mem_cons_self _ _)
      simp [List.dropWhile_cons, ha]
  constructor
  · unfold commandOf firstToken
    rw [hdrop, takeWhile_append_of_all _ _ _ hnw]
    unfold afterFirstToken
    rw [takeWhile_dropWhile, List.append_nil]
  · rw [afterFirstToken, hdrop, dropWhile_append_of_all _ _ _ hnw]
    unfold afterFirstToken
    rw [dropWhile_dropWhile]

theorem dispatch_alias (pin : IGpioPin σ) (s : Session σ) (ls : wistringstream)
    (short long : WString) (hp : (short, long) ∈ aliases) :
    ShowPrompt.dispatch pin s ls short = ShowPrompt.dispatch pin s ls long := by
  simp only [aliases, List.mem_cons, Prod.mk.injEq, List.mem_singleton, List.not_mem_nil,
    or_false] at hp
  rcases hp with ⟨h1, h2⟩ | ⟨h1, h2⟩ | ⟨h1, h2⟩ | ⟨h1, h2⟩ | ⟨h1, h2⟩ | ⟨h1, h2⟩
  · rw [dispatch_quit pin s ls short (Or.inl h1), dispatch_quit pin s ls long (Or.inr h2)]
  · rw [dispatch_help pin s ls short (Or.inl h1), dispatch_help pin s ls long (Or.inr h2)]
  · rw [dispatch_write pin s ls short (Or.inl h1), dispatch_write pin s ls long (Or.inr h2)]
  · rw [dispatch_toggle pin s ls short (Or.inl h1), dispatch_toggle pin s ls long (Or.inr h2)]
  · rw [dispatch_read pin s ls short (Or.inl h1), dispatch_read pin s ls long (Or.inr h2)]
  · rw [dispatch_info pin s ls short (Or.inl h1), dispatch_info pin s ls long (Or.inr h2)]

theorem alias_names (short long : WString) (hp : (short, long) ∈ aliases) :
    short ≠ [] ∧ long ≠ [] ∧ ∀ c ∈ long, iswspace c = false := by
  simp only [aliases, List.mem_cons, Prod.mk.injEq, List.mem_singleton, List.not_mem_nil,
    or_false] at hp
  rcases hp with ⟨h1, h2⟩ | ⟨h1, h2⟩ | ⟨h1, h2⟩ | ⟨h1, h2⟩ | ⟨h1, h2⟩ | ⟨h1, h2⟩ <;>
    subst h1 <;> subst h2 <;> decide

theorem single_letter_unrecognized (c : Char) (hc : c ∉ ['q', 'h', 'w', 't', 'r', 'i']) :
    [c] ∉ commandNames := by
  intro hmem
  apply hc
  simp only [commandNames, List.mem_cons, List.mem_singleton, List.not_mem_nil, or_false] at hmem
  simp only [List.mem_cons, List.mem_singleton, List.not_mem_nil, or_false]
  rcases hmem with h | h | h | h | h | h | h | h | h | h | h | h | h
  · left; injection h
  · exact absurd (congrArg List.length h) (by simp)
  · right; left; injection h
  · exact absurd (congrArg List.length h) (by simp)
  · right; right; left; injection h
  · exact absurd (congrArg List.length h) (by simp)
  · right; right; right; left; injection h
  · exact absurd (congrArg List.length h) (by simp)
  · right; right; right; right; left; injection h
  · exact absurd (congrArg List.length h) (by simp)
  · exact absurd (congrArg List.length h) (by simp)
  · right; right; right; right; right; injection h
  · exact absurd (congrArg List.length h) (by simp)

/-- C13: each short alias is equivalent to its long form: replacing a first token `q`, `h`,
`w`, `t`, `r`, `i` by `quit`, `help`, `write`, `toggle`, `read`, `info` gives the same
result of the loop body (the same session afterwards, so the same pin calls, output and
latch, and the same loop state) for every line, session and pin. Matching is
case-sensitive: `Quit`, `W` and `READ` are reported as unrecognized commands. No single
character other than the six aliases is a command, so `setdrivemode` has no short alias. -/
theorem alias_same_as_long_form (pin : IGpioPin σ) (s : Session σ) (line : WString) :
    (∀ short long : WString, (short, long) ∈ aliases → commandOf line = short →
        commandOf (replaceCommand line long) = long ∧
          ShowPrompt.body pin s (replaceCommand line long) = ShowPrompt.body pin s line) ∧
      (commandOf line = "Quit".toList ∨ commandOf line = "W".toList ∨
          commandOf line = "READ".toList →
        ShowPrompt.body pin s line =
          (((s.put "Unrecognized command: ".toList).put (commandOf line)).put
            ". Type 'help' for command usage.\n".toList, true)) ∧
      (∀ c : Char, commandOf line = [c] → c ∉ ['q', 'h', 'w', 't', 'r', 'i'] →
        ShowPrompt.body pin s line =
          (((s.put "Unrecognized command: ".toList).put [c]).put
            ". Type 'help' for command usage.\n".toList, true)) := by
  refine ⟨?_, ?_, ?_⟩
  · intro short long hp hcmd
    obtain ⟨hs, hl, hws⟩ := alias_names short long hp
    have ht := replaceCommand_tokens line long hl hws
    refine ⟨ht.1, ?_⟩
    rw [body_eq_dispatch, body_eq_dispatch, ht.1,
      readCommand_fst (replaceCommand line long) (by rw [ht.1]; exact hl),
      readCommand_fst line (by rw [hcmd]; exact hs), ht.2, hcmd]
    exact (dispatch_alias pin s _ short long hp).symm
  · intro h
    rw [body_eq_dispatch]
    apply dispatch_unrecognized
    · rcases h with h | h | h <;> rw [h] <;> decide
    · rcases h with h | h | h <;> rw [h] <;> decide
  · intro c hc hnot
    rw [body_eq_dispatch, hc]
    exact dispatch_unrecognized pin s _ [c] (by simp) (single_letter_unrecognized c hnot)

/-- Concrete instance: `w 1` and `write 1` give the same result, and the line `s input` is
an unrecognized command. -/
theorem alias_same_as_long_form_witness :
    ShowPrompt.body (constPin 0 0 0 GpioPinValue_High) (Session.start ()) "write 1".toList =
        ShowPrompt.body (constPin 0 0 0 GpioPinValue_High) (Session.start ()) "w 1".toList ∧
      (ShowPrompt.body (constPin 0 0 0 GpioPinValue_High) (Session.start ())
        "s input".toList).1.wcout =
        "Unrecognized command: s. Type 'help' for command usage.\n".toList :=
  have h := alias_same_as_long_form (constPin 0 0 0 GpioPinValue_High) (Session.start ())
    "w 1".toList
  have h2 := alias_same_as_long_form (constPin 0 0 0 GpioPinValue_High) (Session.start ())
    "s input".toList
  ⟨(h.1 "w".toList "write".toList (by decide) (by decide)).2,
    congrArg (fun r => r.1.wcout) (h2.2.2 's' (by decide) (by decide))⟩

/-- C14: when the pin's read returns the same result both times, two read commands in a
row print the same text both times (the formatted pin value, or the failure diagnostic);
the only calls made on the pin are the two reads, and the latch is unchanged. -/
theorem read_twice_same_text (pin : IGpioPin σ) (s : Session σ) (first second : WString)
    (h1 : commandOf first = "r".toList ∨ commandOf first = "read".toList)
    (h2 : commandOf second = "r".toList ∨ commandOf second = "read".toList)
    (hsame : (pin.Read (pin.Read s.pin).2).1 = (pin.Read s.pin).1) :
    (ShowPrompt.body pin s first).1.wcout = s.wcout ++ readOutput (pin.Read s.pin).1 ∧
      (ShowPrompt.body pin (ShowPrompt.body pin s first).1 second).1.wcout =
        (ShowPrompt.body pin s first).1.wcout ++ readOutput (pin.Read s.pin).1 ∧
      (FAILED (pin.Read s.pin).1.1 = false →
        readOutput (pin.Read s.pin).1 =
          GpioPinValue.operator_insert (pin.Read s.pin).1.2 ++ "\n".toList) ∧
      (ShowPrompt.body pin (ShowPrompt.body pin s first).1 second).1.calls =
        s.calls ++ [PinCall.Read, PinCall.Read] ∧
      (ShowPrompt.body pin s first).1.outputLatch = s.outputLatch ∧
      (ShowPrompt.body pin (ShowPrompt.body pin s first).1 second).1.outputLatch =
        s.outputLatch ∧
      (ShowPrompt.body pin s first).2 = true ∧
      (ShowPrompt.body pin (ShowPrompt.body pin s first).1 second).2 = true := by
  have ha := body_read pin s first h1
  have hb := body_read pin (ShowPrompt.body pin s first).1 second h2
  rw [ha.2.2.1, hsame] at hb
  refine ⟨ha.1, hb.1, ?_, ?_, ha.2.2.2.1, ?_, ha.2.2.2.2, hb.2.2.2.2⟩
  · intro hok
    rw [readOutput, if_neg (by simp [hok])]
  · rw [hb.2.1, ha.2.1]
    simp
  · rw [hb.2.2.2.1, ha.2.2.2.1]

/-- Concrete instance: two reads of a pin at `High` print `High` twice. -/
theorem read_twice_same_text_witness :
    (ShowPrompt.body (constPin 0 0 0 GpioPinValue_High)
        (ShowPrompt.body (constPin 0 0 0 GpioPinValue_High) (Session.start ())
          "read".toList).1 "r".toList).1.wcout = "High\nHigh\n".toList :=
  have h := read_twice_same_text (constPin 0 0 0 GpioPinValue_High) (Session.start ())
    "read".toList "r".toList (by decide) (by decide) rfl
  h.2.1

/-- C15: against a pin whose writes succeed and whose read succeeds and returns the value
last written, a write command with the pin value `v` followed by a read command makes the
read print the formatted `v`; on the fake pin the input `write 1`, `read` prints `High`
and the input `write 0`, `read` prints `Low`. -/
theorem write_then_read_prints_value (pin : IGpioPin σ) (s : Session σ)
    (first second : WString) (v : GpioPinValue)
    (hwrite : ∀ (p : σ) (value : GpioPinValue), FAILED (pin.Write p value).1 = false)
    (hread : ∀ (p : σ) (value : GpioPinValue),
      FAILED (pin.Read (pin.Write p value).2).1.1 = false ∧
        (pin.Read (pin.Write p value).2).1.2 = value)
    (h1 : commandOf first = "w".toList ∨ commandOf first = "write".toList)
    (hv : leadingPinValue (argumentOf first) = some v)
    (h2 : commandOf second = "r".toList ∨ commandOf second = "read".toList) :
    (ShowPrompt.body pin s first).1.wcout = s.wcout ∧
      (ShowPrompt.body pin (ShowPrompt.body pin s first).1 second).1.wcout =
        s.wcout ++ GpioPinValue.operator_insert v ++ "\n".toList ∧
      (v = GpioPinValue_High →
        (ShowPrompt.body pin (ShowPrompt.body pin s first).1 second).1.wcout =
          s.wcout ++ "High\n".toList) ∧
      (∀ pin0 : GpioPinValue,
        (ShowPrompt fakePin pin0 ["write 1".toList, "read".toList]).wcout =
            "> > High\n> ".toList ∧
          (ShowPrompt fakePin pin0 ["write 0".toList, "read".toList]).wcout =
            "> > Low\n> ".toList) := by
  have hw : ShowPrompt.body pin s first = ((Session.Write pin s v).2, true) := by
    rw [body_write_argument pin s first h1, hv]
    simp [hwrite s.pin v]
  have hb := body_read pin (ShowPrompt.body pin s first).1 second h2
  have hr := hread s.pin v
  have hout : (ShowPrompt.body pin (ShowPrompt.body pin s first).1 second).1.wcout =
      s.wcout ++ GpioPinValue.operator_insert v ++ "\n".toList := by
    rw [hb.1, hw]
    simp only [Session.Write_pin, Session.Write_wcout]
    rw [readOutput, if_neg (by simp [hr.1]), hr.2, List.append_assoc]
  refine ⟨by rw [hw]; rfl, hout, ?_, ?_⟩
  · intro h
    rw [hout, h, List.append_assoc]
    rfl
  · intro pin0
    exact ⟨rfl, rfl⟩

/-- Concrete instance: on the fake pin, `write 0` and then `read` print `Low`. -/
theorem write_then_read_prints_value_witness :
    (ShowPrompt.body fakePin (ShowPrompt.body fakePin (Session.start GpioPinValue_High)
        "write 0".toList).1 "read".toList).1.wcout = "Low\n".toList :=
  (write_then_read_prints_value fakePin (Session.start GpioPinValue_High) "write 0".toList
    "read".toList GpioPinValue_Low (fun _ _ => rfl) (fun _ _ => ⟨rfl, rfl⟩) (by decide)
    (by decide) (by decide)).2.1

/-- C16, as stated, fails: the formatter prints the drive mode `Input` as `input`, with a
lower-case first letter, not as `Input`; likewise `output`, `inputPullUp` and
`inputPullDown`. -/
theorem driveMode_format_not_capitalised :
    GpioPinDriveMode.operator_insert GpioPinDriveMode_Input = "input".toList ∧
      GpioPinDriveMode.operator_insert GpioPinDriveMode_Input ≠ "Input".toList ∧
      GpioPinDriveMode.operator_insert GpioPinDriveMode_Output ≠ "Output".toList ∧
      GpioPinDriveMode.operator_insert GpioPinDriveMode_InputPullUp ≠ "InputPullUp".toList ∧
      GpioPinDriveMode.operator_insert GpioPinDriveMode_InputPullDown ≠
        "InputPullDown".toList := by
  decide

/-- C16, amended: the drive-mode formatter prints the four modes as `input`, `output`,
`inputPullUp` and `inputPullDown`, the spelling of the help text and of the parser, and
prints any other value as `[undefined]`. -/
theorem driveMode_format :
    GpioPinDriveMode.operator_insert GpioPinDriveMode_Input = "input".toList ∧
      GpioPinDriveMode.operator_insert GpioPinDriveMode_Output = "output".toList ∧
      GpioPinDriveMode.operator_insert GpioPinDriveMode_InputPullUp = "inputPullUp".toList ∧
      GpioPinDriveMode.operator_insert GpioPinDriveMode_InputPullDown =
        "inputPullDown".toList ∧
      (∀ value : GpioPinDriveMode, value ≠ GpioPinDriveMode_Input →
        value ≠ GpioPinDriveMode_Output → value ≠ GpioPinDriveMode_InputPullUp →
        value ≠ GpioPinDriveMode_InputPullDown →
        GpioPinDriveMode.operator_insert value = "[undefined]".toList) := by
  refine ⟨by decide, by decide, by decide, by decide, ?_⟩
  intro value h0 h1 h2 h3
  rw [GpioPinDriveMode.operator_insert, if_neg h0, if_neg h1, if_neg h2, if_neg h3]

/-- Concrete instance: the value 4 is printed as `[undefined]`. -/
theorem driveMode_format_witness :
    GpioPinDriveMode.operator_insert 4 = "[undefined]".toList :=
  driveMode_format.2.2.2.2 4 (by decide) (by decide) (by decide) (by decide)

theorem sharingMode_text (value : GpioSharingMode) :
    GpioSharingMode.operator_insert value = "Exclusive".toList ∨
      GpioSharingMode.operator_insert value = "SharedReadOnly".toList ∨
      GpioSharingMode.operator_insert value = "[undefined]".toList := by
  unfold GpioSharingMode.operator_insert
  split
  · exact Or.inl rfl
  · split
    · exact Or.inr (Or.inl rfl)
    · exact Or.inr (Or.inr rfl)

theorem sharingMode_no_newline (value : GpioSharingMode) :
    '\n' ∉ GpioSharingMode.operator_insert value := by
  rcases sharingMode_text value with h | h | h <;> rw [h] <;> decide

theorem driveMode_no_newline (value : GpioPinDriveMode) :
    '\n' ∉ GpioPinDriveMode.operator_insert value := by
  unfold GpioPinDriveMode.operator_insert
  split_ifs <;> decide

/-- C17: `info` (or `i`) prints exactly four lines, in this order: the pin number in
decimal, the sharing mode, the debounce timeout in decimal, the drive mode; this holds
whatever the `basefield` of the output was before, so also after a failed command left it
at hexadecimal. The sharing mode is printed as `Exclusive` for `Exclusive`, as
`SharedReadOnly` for `SharedReadOnly` and as `[undefined]` for every other value. The only
calls on the pin are the four getters, in that order, each on the pin the previous one
left; no failure is reported and the loop goes on. -/
theorem info_prints_four_lines (pin : IGpioPin σ) (s : Session σ) (line : WString)
    (hcmd : commandOf line = "i".toList ∨ commandOf line = "info".toList) :
    (ShowPrompt.body pin s line).1.wcout =
        s.wcout ++
          ("        Pin Number: ".toList ++ decimalText (pin.get_PinNumber s.pin).1 ++
            "\n".toList) ++
          ("      Sharing Mode: ".toList ++
            GpioSharingMode.operator_insert
              (pin.get_SharingMode (pin.get_PinNumber s.pin).2).1 ++ "\n".toList) ++
          ("  Debounce Timeout: ".toList ++
            decimalText (pin.get_DebounceTimeout
              (pin.get_SharingMode (pin.get_PinNumber s.pin).2).2).1 ++ "\n".toList) ++
          ("        Drive Mode: ".toList ++
            GpioPinDriveMode.operator_insert
              (pin.GetDriveMode (pin.get_DebounceTimeout
                (pin.get_SharingMode (pin.get_PinNumber s.pin).2).2).2).1 ++ "\n".toList) ∧
      (∀ (code : Int) (sharingMode : GpioSharingMode) (driveMode : GpioPinDriveMode),
        isSingleLine ("        Pin Number: ".toList ++ decimalText code ++ "\n".toList) = true ∧
          isSingleLine ("      Sharing Mode: ".toList ++
            GpioSharingMode.operator_insert sharingMode ++ "\n".toList) = true ∧
          isSingleLine ("  Debounce Timeout: ".toList ++ decimalText code ++ "\n".toList) = true ∧
          isSingleLine ("        Drive Mode: ".toList ++
            GpioPinDriveMode.operator_insert driveMode ++ "\n".toList) = true ∧
          (GpioSharingMode.operator_insert sharingMode = "Exclusive".toList ∨
            GpioSharingMode.operator_insert sharingMode = "SharedReadOnly".toList ∨
            GpioSharingMode.operator_insert sharingMode = "[undefined]".toList)) ∧
      (ShowPrompt.body pin s line).1.calls =
        s.calls ++ [PinCall.get_PinNumber, PinCall.get_SharingMode,
          PinCall.get_DebounceTimeout, PinCall.GetDriveMode] ∧
      (ShowPrompt.body pin s line).1.outputLatch = s.outputLatch ∧
      (ShowPrompt.body pin s line).1.hex = false ∧
      (ShowPrompt.body pin s line).2 = true ∧
      GpioSharingMode.operator_insert GpioSharingMode_Exclusive = "Exclusive".toList ∧
      GpioSharingMode.operator_insert GpioSharingMode_SharedReadOnly =
        "SharedReadOnly".toList ∧
      (∀ value : GpioSharingMode, value ≠ GpioSharingMode_Exclusive →
        value ≠ GpioSharingMode_SharedReadOnly →
        GpioSharingMode.operator_insert value = "[undefined]".toList) ∧
      (ShowPrompt.body pin s line).1.pin =
        (pin.GetDriveMode (pin.get_DebounceTimeout
          (pin.get_SharingMode (pin.get_PinNumber s.pin).2).2).2).2 := by
  have single : ∀ (label text : WString), '\n' ∉ label → '\n' ∉ text →
      isSingleLine (label ++ text ++ "\n".toList) = true := by
    intro label text hl ht
    unfold isSingleLine
    simp only [Bool.and_eq_true, beq_iff_eq, List.count_append]
    refine ⟨?_, ?_⟩
    · show (_ ++ ['\n']).getLast? = some '\n'
      exact List.getLast?_concat _
    · rw [List.count_eq_zero_of_not_mem hl, List.count_eq_zero_of_not_mem ht]
      decide
  rw [body_eq_dispatch, dispatch_info pin s _ _ hcmd]
  refine ⟨?_, ?_, ?_, ?_, ?_, rfl, by decide, by decide, ?_, ?_⟩
  · simp [formatInteger_dec]
  · intro code sharingMode driveMode
    exact ⟨single _ _ (by decide) (formatInteger_no_newline false 32 code),
      single _ _ (by decide) (sharingMode_no_newline _),
      single _ _ (by decide) (formatInteger_no_newline false 32 code),
      single _ _ (by decide) (driveMode_no_newline _),
      sharingMode_text _⟩
  · simp
  · simp
  · simp
  · intro value h0 h1
    rw [GpioSharingMode.operator_insert, if_neg h0, if_neg h1]
  · simp

/-- Concrete instance: after a failed read has left the output in hexadecimal, `info` on
pin 47 prints the pin number as `47`; on a pin that is shared read-only the second line
reads `SharedReadOnly`; the value 5 is printed as `[undefined]`. -/
theorem info_prints_four_lines_witness :
    (ShowPrompt.body (constPin 0 (-1) 0 GpioPinValue_High) (Session.start ())
        "read".toList).1.hex = true ∧
      (ShowPrompt.body (constPin 0 (-1) 0 GpioPinValue_High)
        (ShowPrompt.body (constPin 0 (-1) 0 GpioPinValue_High) (Session.start ())
          "read".toList).1 "info".toList).1.wcout =
        ("Failed to read pin. hr = 0xffffffff\n" ++
          "        Pin Number: 47\n" ++
          "      Sharing Mode: Exclusive\n" ++
          "  Debounce Timeout: 0\n" ++
          "        Drive Mode: input\n").toList ∧
      (ShowPrompt.body modePin (Session.start GpioPinDriveMode_Output) "i".toList).1.wcout =
        ("        Pin Number: 47\n" ++
          "      Sharing Mode: SharedReadOnly\n" ++
          "  Debounce Timeout: 0\n" ++
          "        Drive Mode: output\n").toList ∧
      GpioSharingMode.operator_insert 5 = "[undefined]".toList :=
  ⟨by decide,
    (info_prints_four_lines (constPin 0 (-1) 0 GpioPinValue_High)
      (ShowPrompt.body (constPin 0 (-1) 0 GpioPinValue_High) (Session.start ())
        "read".toList).1 "info".toList (by decide)).1,
    (info_prints_four_lines modePin (Session.start GpioPinDriveMode_Output) "i".toList
      (by decide)).1,
    (info_prints_four_lines modePin (Session.start GpioPinDriveMode_Output) "i".toList
      (by decide)).2.2.2.2.2.2.2.2.1 5 (by decide) (by decide)⟩

theorem loop_cons_quit (pin : IGpioPin σ) (s : Session σ) (line : WString)
    (rest : List WString) (hq : isQuit line = true) :
    ShowPrompt.loop pin s (line :: rest) = s.put "> ".toList := by
  have hq1 : commandOf line = "q".toList ∨ commandOf line = "quit".toList := by
    simpa [isQuit] using hq
  have hb : ShowPrompt.body pin (s.put "> ".toList) line = (s.put "> ".toList, false) := by
    rw [body_eq_dispatch, dispatch_quit pin _ _ _ hq1]
  rw [ShowPrompt.loop, hb]

theorem loop_cons_running (pin : IGpioPin σ) (s : Session σ) (line : WString)
    (rest : List WString) (hq : isQuit line = false) :
    ShowPrompt.loop pin s (line :: rest) =
      ShowPrompt.loop pin (ShowPrompt.body pin (s.put "> ".toList) line).1 rest := by
  have hq1 : ¬ (commandOf line = "q".toList ∨ commandOf line = "quit".toList) := by
    intro h
    have : isQuit line = true := by simpa [isQuit] using h
    rw [hq] at this
    exact Bool.false_ne_true this
  have h2 : (ShowPrompt.body pin (s.put "> ".toList) line).2 = true := by
    cases hb : (ShowPrompt.body pin (s.put "> ".toList) line).2
    · rw [body_eq_dispatch] at hb
      exact absurd ((dispatch_running_iff pin _ _ _).1 hb) hq1
    · rfl
  have hb : ShowPrompt.body pin (s.put "> ".toList) line =
      ((ShowPrompt.body pin (s.put "> ".toList) line).1, true) := Prod.ext rfl h2
  rw [ShowPrompt.loop, hb]

theorem toggleCount_cons_quit (line : WString) (rest : List WString) (hq : isQuit line = true) :
    toggleCount (line :: rest) = 0 := by
  simp [toggleCount, processed, List.takeWhile_cons, hq]

theorem toggleCount_cons_toggle (line : WString) (rest : List WString)
    (hq : isQuit line = false) (ht : isToggle line = true) :
    toggleCount (line :: rest) = toggleCount rest + 1 := by
  simp [toggleCount, processed, List.takeWhile_cons, hq, List.countP_cons, ht]

theorem toggleCount_cons_other (line : WString) (rest : List WString)
    (hq : isQuit line = false) (ht : isToggle line = false) :
    toggleCount (line :: rest) = toggleCount rest := by
  simp [toggleCount, processed, List.takeWhile_cons, hq, List.countP_cons, ht]

theorem loop_latch (pin : IGpioPin σ) (lines : List WString) (s : Session σ) :
    (ShowPrompt.loop pin s lines).outputLatch =
      (operator_not^[toggleCount lines]) s.outputLatch := by
  induction lines generalizing s with
  | nil => rfl
  | cons line rest ih =>
    cases hq : isQuit line
    · rw [loop_cons_running pin s line rest hq, ih]
      cases ht : isToggle line
      · have hnt : ¬ (commandOf line = "t".toList ∨ commandOf line = "toggle".toList) := by
          intro h
          have : isToggle line = true := by simpa [isToggle] using h
          rw [ht] at this
          exact Bool.false_ne_true this
        rw [toggleCount_cons_other line rest hq ht, body_eq_dispatch,
          dispatch_latch pin _ _ _ hnt]
        rfl
      · have hyes : commandOf line = "t".toList ∨ commandOf line = "toggle".toList := by
          simpa [isToggle] using ht
        rw [toggleCount_cons_toggle line rest hq ht, (body_toggle pin _ line hyes).1,
          Function.iterate_succ_apply]
        rfl
    · rw [loop_cons_quit pin s line rest hq, toggleCount_cons_quit line rest hq]
      rfl

theorem operator_not_iterate (n : Nat) :
    (operator_not^[n]) GpioPinValue_High =
      if n % 2 = 0 then GpioPinValue_High else GpioPinValue_Low := by
  induction n with
  | zero => rfl
  | succ k ih =>
    rw [Function.iterate_succ_apply', ih]
    by_cases hk : k % 2 = 0
    · have : (k + 1) % 2 ≠ 0 := by omega
      rw [if_pos hk, if_neg this]
      rfl
    · have : (k + 1) % 2 = 0 := by omega
      rw [if_neg hk, if_pos this]
      rfl

/-- C18: for every pin, whatever its operations return, and every finite sequence of input
lines, the latch at the end of `ShowPrompt` is `Low` or `High`, and it is `High` exactly
when the number of toggle commands processed (those before the first quit command) is
even. Every round of the loop keeps the latch at `Low` or `High`. -/
theorem latch_parity (pin : IGpioPin σ) (pin0 : σ) (lines : List WString) :
    ((ShowPrompt pin pin0 lines).outputLatch = GpioPinValue_Low ∨
        (ShowPrompt pin pin0 lines).outputLatch = GpioPinValue_High) ∧
      ((ShowPrompt pin pin0 lines).outputLatch = GpioPinValue_High ↔
        toggleCount lines % 2 = 0) ∧
      (∀ (s : Session σ) (line : WString),
        s.outputLatch = GpioPinValue_Low ∨ s.outputLatch = GpioPinValue_High →
        (ShowPrompt.body pin s line).1.outputLatch = GpioPinValue_Low ∨
          (ShowPrompt.body pin s line).1.outputLatch = GpioPinValue_High) := by
  have hstep : ∀ (s : Session σ) (line : WString),
      s.outputLatch = GpioPinValue_Low ∨ s.outputLatch = GpioPinValue_High →
      (ShowPrompt.body pin s line).1.outputLatch = GpioPinValue_Low ∨
        (ShowPrompt.body pin s line).1.outputLatch = GpioPinValue_High := by
    intro s line hs
    by_cases ht : commandOf line = "t".toList ∨ commandOf line = "toggle".toList
    · rw [(body_toggle pin s line ht).1]
      rcases hs with h | h <;> rw [h]
      · exact Or.inr rfl
      · exact Or.inl rfl
    · rw [body_eq_dispatch, dispatch_latch pin s _ _ ht]
      exact hs
  refine (and_assoc.1 ⟨?_, hstep⟩)
  have h : (ShowPrompt pin pin0 lines).outputLatch =
      if toggleCount lines % 2 = 0 then GpioPinValue_High else GpioPinValue_Low := by
    unfold ShowPrompt
    rw [loop_latch]
    exact operator_not_iterate _
  rw [h]
  by_cases hk : toggleCount lines % 2 = 0
  · rw [if_pos hk]
    exact ⟨Or.inr rfl, fun _ => hk, fun _ => rfl⟩
  · rw [if_neg hk]
    exact ⟨Or.inl rfl, fun h1 => absurd h1 (by decide), fun h1 => absurd h1 hk⟩

/-- Concrete instance: on a pin whose writes fail, `t`, `w 1`, `toggle` and then `q` leave
the latch at `High`; the `t` after the quit is not processed. -/
theorem latch_parity_witness :
    (ShowPrompt (constPin E_FAIL 0 0 GpioPinValue_High) ()
        ["t".toList, "w 1".toList, "toggle".toList, "q".toList, "t".toList]).outputLatch =
      GpioPinValue_High :=
  (latch_parity (constPin E_FAIL 0 0 GpioPinValue_High) ()
    ["t".toList, "w 1".toList, "toggle".toList, "q".toList, "t".toList]).2.1.2 (by decide)

end GpioCppWrl
